import Mathlib

/-!
# Verification of the instance-variable and Sidekiq-metrics service modules

A shallow embedding of the two service files of the vendored GitLab client
(`instance_variables.go` and `sidekiq_metrics.go`) together with the parts of
their collaborators that the services rely on: Go strings are modelled as lists
of bytes (`List Nat`, each `< 256`), the shared transport client is modelled as
an oracle over request-construction and HTTP outcomes, and JSON decoding of the
typed response structures follows `encoding/json` semantics on the declared
struct tags.
-/

namespace GitlabClient

/-! ## Bytes and percent-encoding (Go `net/url`)

Go strings are byte sequences; the variable key is interpolated into the
request path through `url.PathEscape`.  The definitions below embed
`net/url`'s `escape`/`unescape` pair for mode `encodePathSegment`. -/

/-- Bytes of an ASCII string literal, used to write fixed paths readably. -/
def ascii (s : String) : List Nat :=
  s.data.map Char.toNat

/-- `shouldEscape c encodePathSegment` from Go `net/url`: alphanumerics and
`- _ . ~` are never escaped; of the reserved set `$ & + , / : ; = ? @` only
`/ ; , ?` are escaped in a path segment; every other byte is escaped. -/
def shouldEscapePathSegment (c : Nat) : Bool :=
  if (97 ≤ c && c ≤ 122) || (65 ≤ c && c ≤ 90) || (48 ≤ c && c ≤ 57) then
    false
  else if c = 45 || c = 95 || c = 46 || c = 126 then
    false
  else if c = 36 || c = 38 || c = 43 || c = 44 || c = 47 || c = 58 ||
      c = 59 || c = 61 || c = 63 || c = 64 then
    c = 47 || c = 59 || c = 44 || c = 63
  else
    true

/-- The upper-case hex digits `"0123456789ABCDEF"` used by `net/url.escape`. -/
def hexDigitUpper (n : Nat) : Nat :=
  [48, 49, 50, 51, 52, 53, 54, 55, 56, 57, 65, 66, 67, 68, 69, 70].getD n 0

/-- Go `url.PathEscape`: each byte that `shouldEscape` selects for mode
`encodePathSegment` becomes `%` followed by its two upper-case hex digits;
all other bytes pass through unchanged. -/
def pathEscape : List Nat → List Nat
  | [] => []
  | c :: rest =>
    if shouldEscapePathSegment c then
      37 :: hexDigitUpper (c / 16) :: hexDigitUpper (c % 16) :: pathEscape rest
    else
      c :: pathEscape rest

/-- Go `net/url.ishex`: ASCII hex digit bytes. -/
def isHexByte (c : Nat) : Bool :=
  (48 ≤ c && c ≤ 57) || (97 ≤ c && c ≤ 102) || (65 ≤ c && c ≤ 70)

/-- Go `net/url.unhex`: numeric value of a hex digit byte. -/
def unhexByte (c : Nat) : Nat :=
  if 48 ≤ c && c ≤ 57 then c - 48
  else if 97 ≤ c && c ≤ 102 then c - 97 + 10
  else if 65 ≤ c && c ≤ 70 then c - 65 + 10
  else 0

/-- Go `url.PathUnescape` (mode `encodePathSegment`): `%` must be followed by
two hex digits and becomes the denoted byte, `+` and every other byte are kept
literally, and a malformed `%` sequence is an error (`none`). -/
def pathUnescape : List Nat → Option (List Nat)
  | [] => some []
  | [37] => none
  | [37, _] => none
  | 37 :: a :: b :: rest =>
    if isHexByte a && isHexByte b then
      (pathUnescape rest).map (fun t => (unhexByte a * 16 + unhexByte b) :: t)
    else
      none
  | c :: rest => (pathUnescape rest).map (fun t => c :: t)

/-- The trailing path segment of a byte string: the bytes after the last
`/` (byte 47). -/
def lastSegment (l : List Nat) : List Nat :=
  (l.reverse.takeWhile (fun b => b != 47)).reverse

theorem hexDigitUpper_spec :
    ∀ n < 16, isHexByte (hexDigitUpper n) = true ∧
      unhexByte (hexDigitUpper n) = n := by
  decide

theorem hexDigitUpper_ne_slash (n : Nat) : hexDigitUpper n ≠ 47 := by
  by_cases h : n < 16
  · have hball : ∀ m < 16, hexDigitUpper m ≠ 47 := by decide
    exact hball n h
  · unfold hexDigitUpper
    rw [List.getD_eq_default]
    · omega
    · simpa using Nat.le_of_not_lt h

theorem pathUnescape_cons_ne (c : Nat) (l : List Nat) (hc37 : c ≠ 37) :
    pathUnescape (c :: l) = (pathUnescape l).map (fun t => c :: t) := by
  cases l with
  | nil => simp [pathUnescape, hc37]
  | cons x xs =>
    cases xs with
    | nil => simp [pathUnescape, hc37]
    | cons y ys => simp [pathUnescape, hc37]

theorem pathUnescape_escaped (a b : Nat) (l : List Nat)
    (ha : isHexByte a = true) (hb : isHexByte b = true) :
    pathUnescape (37 :: a :: b :: l) =
      (pathUnescape l).map (fun t => (unhexByte a * 16 + unhexByte b) :: t) := by
  simp [pathUnescape, ha, hb]

theorem pathUnescape_pathEscape (s : List Nat) (h : ∀ b ∈ s, b < 256) :
    pathUnescape (pathEscape s) = some s := by
  induction s with
  | nil => rfl
  | cons c rest ih =>
    have hc : c < 256 := h c (List.mem_cons_self c rest)
    have hrest : ∀ b ∈ rest, b < 256 := fun b hb => h b (List.mem_cons_of_mem _ hb)
    by_cases hesc : shouldEscapePathSegment c = true
    · have hdiv : c / 16 < 16 := by omega
      have hmod : c % 16 < 16 := Nat.mod_lt _ (by omega)
      obtain ⟨hhex1, hval1⟩ := hexDigitUpper_spec _ hdiv
      obtain ⟨hhex2, hval2⟩ := hexDigitUpper_spec _ hmod
      have harith : unhexByte (hexDigitUpper (c / 16)) * 16 +
          unhexByte (hexDigitUpper (c % 16)) = c := by
        rw [hval1, hval2]
        omega
      simp only [pathEscape, hesc, if_true,
        pathUnescape_escaped _ _ _ hhex1 hhex2, ih hrest, harith]
      rfl
    · have hescf : shouldEscapePathSegment c = false := by simpa using hesc
      have hc37 : c ≠ 37 := by
        intro heq
        rw [heq] at hescf
        exact absurd hescf (by decide)
      simp only [pathEscape, hescf, Bool.false_eq_true, if_false,
        pathUnescape_cons_ne _ _ hc37, ih hrest]
      rfl

theorem slash_not_mem_pathEscape (s : List Nat) : 47 ∉ pathEscape s := by
  induction s with
  | nil => simp [pathEscape]
  | cons c rest ih =>
    by_cases hesc : shouldEscapePathSegment c = true
    · simp only [pathEscape, hesc, if_true, List.mem_cons]
      rintro (h | h | h | h)
      · omega
      · exact hexDigitUpper_ne_slash _ h.symm
      · exact hexDigitUpper_ne_slash _ h.symm
      · exact ih h
    · have hescf : shouldEscapePathSegment c = false := by simpa using hesc
      simp only [pathEscape, hescf, Bool.false_eq_true, if_false, List.mem_cons]
      rintro (h | h)
      · rw [← h] at hescf
        exact absurd hescf (by decide)
      · exact ih h

theorem takeWhile_ne_slash_append (a b : List Nat) (ha : ∀ x ∈ a, x ≠ 47) :
    (a ++ 47 :: b).takeWhile (fun x => x != 47) = a := by
  induction a with
  | nil => simp [List.takeWhile]
  | cons x xs ih =>
    have hx : x ≠ 47 := ha x (List.mem_cons_self x xs)
    have hxs : ∀ y ∈ xs, y ≠ 47 := fun y hy => ha y (List.mem_cons_of_mem _ hy)
    simp only [List.cons_append, List.takeWhile_cons]
    rw [if_pos (by simpa using hx), ih hxs]

theorem lastSegment_concat (l t : List Nat) (ht : ∀ x ∈ t, x ≠ 47) :
    lastSegment (l ++ 47 :: t) = t := by
  unfold lastSegment
  rw [List.reverse_append, List.reverse_cons, List.append_assoc,
    List.singleton_append, takeWhile_ne_slash_append _ _
      (fun x hx => ht x (List.mem_reverse.mp hx)), List.reverse_reverse]

/-! ## JSON values and `encoding/json` decoding

Response bodies are JSON values; each typed response structure is decoded
following `encoding/json` semantics on the struct declarations of the two
source files: a missing or `null` field leaves the zero value, an unknown
field is ignored, and a type mismatch is an error. -/

inductive Json where
  | null : Json
  | bool (b : Bool) : Json
  | num (n : Int) : Json
  | str (s : String) : Json
  | arr (elems : List Json) : Json
  | obj (fields : List (String × Json)) : Json

/-- First binding of a key in a JSON object field list. -/
def Json.lookupField (fields : List (String × Json)) (k : String) : Option Json :=
  match fields with
  | [] => none
  | (k2, v) :: rest => if k2 = k then some v else Json.lookupField rest k

/-- Decode a `string` struct field: absent or `null` leaves the zero value. -/
def strField (fields : List (String × Json)) (k : String) : Except String String :=
  match Json.lookupField fields k with
  | none => .ok ""
  | some .null => .ok ""
  | some (.str s) => .ok s
  | some _ => .error ("cannot unmarshal field " ++ k)

/-- Decode an `int` struct field: absent or `null` leaves the zero value. -/
def intField (fields : List (String × Json)) (k : String) : Except String Int :=
  match Json.lookupField fields k with
  | none => .ok 0
  | some .null => .ok 0
  | some (.num n) => .ok n
  | some _ => .error ("cannot unmarshal field " ++ k)

/-- Decode a `bool` struct field: absent or `null` leaves the zero value. -/
def boolField (fields : List (String × Json)) (k : String) : Except String Bool :=
  match Json.lookupField fields k with
  | none => .ok false
  | some .null => .ok false
  | some (.bool b) => .ok b
  | some _ => .error ("cannot unmarshal field " ++ k)

/-- Decode a `[]string` struct field: absent or `null` leaves a nil slice. -/
def strListField (fields : List (String × Json)) (k : String) :
    Except String (List String) :=
  match Json.lookupField fields k with
  | none => .ok []
  | some .null => .ok []
  | some (.arr es) =>
    es.mapM fun j =>
      match j with
      | .str s => Except.ok s
      | _ => Except.error ("cannot unmarshal field " ++ k)
  | some _ => .error ("cannot unmarshal field " ++ k)

/-- A `time.Time` value, abstracted to its RFC 3339 rendering (the service
code never inspects the parsed time, so the parse itself is kept opaque). -/
structure GoTime where
  rfc3339 : String
deriving DecidableEq

/-- Decode a `*time.Time` struct field: absent or `null` leaves a nil
pointer, a string is the parsed timestamp. -/
def optTimeField (fields : List (String × Json)) (k : String) :
    Except String (Option GoTime) :=
  match Json.lookupField fields k with
  | none => .ok none
  | some .null => .ok none
  | some (.str s) => .ok (some ⟨s⟩)
  | some _ => .error ("cannot unmarshal field " ++ k)

/-! ## The typed structures of the two source files -/

/-- `VariableTypeValue` is declared elsewhere in the client as a string type
(`env_var` / `file`). -/
abbrev VariableTypeValue := String

/-- `InstanceVariable` (instance_variables.go): a GitLab instance level CI
variable, with its seven declared JSON fields. -/
structure InstanceVariable where
  Key : String
  Value : String
  VariableType : VariableTypeValue
  Protected : Bool
  Masked : Bool
  Raw : Bool
  Description : String
deriving DecidableEq

/-- The Go zero value of `InstanceVariable`, as produced by `new(...)`. -/
def InstanceVariable.zero : InstanceVariable :=
  ⟨"", "", "", false, false, false, ""⟩

/-- Decode into an `InstanceVariable` per its `json:"..."` tags. -/
def decodeInstanceVariable : Json → Except String InstanceVariable
  | .null => .ok InstanceVariable.zero
  | .obj fields => do
    let key ← strField fields "key"
    let value ← strField fields "value"
    let vt ← strField fields "variable_type"
    let prot ← boolField fields "protected"
    let masked ← boolField fields "masked"
    let rawFlag ← boolField fields "raw"
    let descr ← strField fields "description"
    .ok ⟨key, value, vt, prot, masked, rawFlag, descr⟩
  | _ => .error "cannot unmarshal into InstanceVariable"

/-- Decode a `*InstanceVariable` slice element: `null` is a nil pointer. -/
def decodeInstanceVariablePtr (j : Json) :
    Except String (Option InstanceVariable) :=
  match j with
  | .null => .ok none
  | _ => (decodeInstanceVariable j).map some

/-- Decode into `[]*InstanceVariable` (the target of `ListVariables`). -/
def decodeInstanceVariableList : Json → Except String (List (Option InstanceVariable))
  | .null => .ok []
  | .arr es => es.mapM decodeInstanceVariablePtr
  | _ => .error "cannot unmarshal into a slice of InstanceVariable"

/-- The anonymous per-queue record of `QueueMetrics` (sidekiq_metrics.go). -/
structure QueueInfo where
  Backlog : Int
  Latency : Int
deriving DecidableEq

/-- `QueueMetrics` (sidekiq_metrics.go); the Go `map[string]...` is modelled
as an association list in JSON field order. -/
structure QueueMetrics where
  Queues : List (String × QueueInfo)
deriving DecidableEq

/-- The anonymous per-process record of `ProcessMetrics` (sidekiq_metrics.go). -/
structure ProcessInfo where
  Hostname : String
  Pid : Int
  Tag : String
  StartedAt : Option GoTime
  Queues : List String
  Labels : List String
  Concurrency : Int
  Busy : Int
deriving DecidableEq

/-- `ProcessMetrics` (sidekiq_metrics.go). -/
structure ProcessMetrics where
  Processes : List ProcessInfo
deriving DecidableEq

/-- The anonymous counter record of `JobStats` (sidekiq_metrics.go). -/
structure JobCounts where
  Processed : Int
  Failed : Int
  Enqueued : Int
deriving DecidableEq

/-- `JobStats` (sidekiq_metrics.go). -/
structure JobStats where
  Jobs : JobCounts
deriving DecidableEq

/-- `CompoundMetrics` (sidekiq_metrics.go): the struct embeds `QueueMetrics`,
`ProcessMetrics` and `JobStats` and declares nothing else; the embedded
structs are its three (anonymous) fields. -/
structure CompoundMetrics where
  queueMetrics : QueueMetrics
  processMetrics : ProcessMetrics
  jobStats : JobStats
deriving DecidableEq

/-- Decode the per-queue record. -/
def decodeQueueInfo : Json → Except String QueueInfo
  | .null => .ok ⟨0, 0⟩
  | .obj fields => do
    let backlog ← intField fields "backlog"
    let latency ← intField fields "latency"
    .ok ⟨backlog, latency⟩
  | _ => .error "cannot unmarshal queue record"

/-- Parse the top-level `queues` field (tag of `QueueMetrics.Queues`);
embedded-struct fields are promoted to the top level by `encoding/json`, so
`CompoundMetrics` reads the same field. -/
def parseQueuesField (fields : List (String × Json)) :
    Except String (List (String × QueueInfo)) :=
  match Json.lookupField fields "queues" with
  | none => .ok []
  | some .null => .ok []
  | some (.obj qs) => qs.mapM fun p => (decodeQueueInfo p.2).map fun qi => (p.1, qi)
  | some _ => .error "cannot unmarshal field queues"

/-- Decode the per-process record per its `json:"..."` tags. -/
def decodeProcessInfo : Json → Except String ProcessInfo
  | .null => .ok ⟨"", 0, "", none, [], [], 0, 0⟩
  | .obj fields => do
    let hostname ← strField fields "hostname"
    let pid ← intField fields "pid"
    let tag ← strField fields "tag"
    let startedAt ← optTimeField fields "started_at"
    let queues ← strListField fields "queues"
    let labels ← strListField fields "labels"
    let concurrency ← intField fields "concurrency"
    let busy ← intField fields "busy"
    .ok ⟨hostname, pid, tag, startedAt, queues, labels, concurrency, busy⟩
  | _ => .error "cannot unmarshal process record"

/-- Parse the top-level `processes` field (tag of `ProcessMetrics.Processes`). -/
def parseProcessesField (fields : List (String × Json)) :
    Except String (List ProcessInfo) :=
  match Json.lookupField fields "processes" with
  | none => .ok []
  | some .null => .ok []
  | some (.arr es) => es.mapM decodeProcessInfo
  | some _ => .error "cannot unmarshal field processes"

/-- Parse the top-level `jobs` field (tag of `JobStats.Jobs`). -/
def parseJobsField (fields : List (String × Json)) : Except String JobCounts :=
  match Json.lookupField fields "jobs" with
  | none => .ok ⟨0, 0, 0⟩
  | some .null => .ok ⟨0, 0, 0⟩
  | some (.obj js) => do
    let processed ← intField js "processed"
    let failed ← intField js "failed"
    let enqueued ← intField js "enqueued"
    .ok ⟨processed, failed, enqueued⟩
  | some _ => .error "cannot unmarshal field jobs"

/-- Decode into `QueueMetrics`. -/
def decodeQueueMetrics : Json → Except String QueueMetrics
  | .null => .ok ⟨[]⟩
  | .obj fields => (parseQueuesField fields).map QueueMetrics.mk
  | _ => .error "cannot unmarshal into QueueMetrics"

/-- Decode into `ProcessMetrics`. -/
def decodeProcessMetrics : Json → Except String ProcessMetrics
  | .null => .ok ⟨[]⟩
  | .obj fields => (parseProcessesField fields).map ProcessMetrics.mk
  | _ => .error "cannot unmarshal into ProcessMetrics"

/-- Decode into `JobStats`. -/
def decodeJobStats : Json → Except String JobStats
  | .null => .ok ⟨⟨0, 0, 0⟩⟩
  | .obj fields => (parseJobsField fields).map JobStats.mk
  | _ => .error "cannot unmarshal into JobStats"

/-- Decode into `CompoundMetrics`: `encoding/json` promotes the fields of the
three embedded structs, so the decoder reads `queues`, `processes` and `jobs`
from the one top-level object. -/
def decodeCompoundMetrics : Json → Except String CompoundMetrics
  | .null => .ok ⟨⟨[]⟩, ⟨[]⟩, ⟨⟨0, 0, 0⟩⟩⟩
  | .obj fields => do
    let qs ← parseQueuesField fields
    let ps ← parseProcessesField fields
    let js ← parseJobsField fields
    .ok ⟨⟨qs⟩, ⟨ps⟩, ⟨js⟩⟩
  | _ => .error "cannot unmarshal into CompoundMetrics"

/-! ## Option structures and their serialization

`CreateInstanceVariableOptions` and `UpdateInstanceVariableOptions` are
declared in instance_variables.go; Go pointer fields become `Option`, and
`omitempty` drops a nil pointer (or a zero `int`) from the serialization. -/

/-- Modelled from the spec: `ListOptions` is declared in the shared client
(not in src/); the spec describes the listing call as accepting pagination
options (page number/size), serialized with `omitempty` URL tags. -/
structure ListOptions where
  page : Int
  perPage : Int
deriving DecidableEq

/-- `ListInstanceVariablesOptions` (instance_variables.go) is declared as
`ListOptions`. -/
abbrev ListInstanceVariablesOptions := ListOptions

/-- `CreateInstanceVariableOptions` (instance_variables.go). -/
structure CreateInstanceVariableOptions where
  Key : Option String
  Value : Option String
  Description : Option String
  Masked : Option Bool
  Protected : Option Bool
  Raw : Option Bool
  VariableType : Option VariableTypeValue
deriving DecidableEq

/-- `UpdateInstanceVariableOptions` (instance_variables.go): the declared
fields are value, description, masked, protected, raw and variable_type;
there is no key field. -/
structure UpdateInstanceVariableOptions where
  Value : Option String
  Description : Option String
  Masked : Option Bool
  Protected : Option Bool
  Raw : Option Bool
  VariableType : Option VariableTypeValue
deriving DecidableEq

/-- Serialize one `*string` field under `omitempty`: nil is omitted. -/
def optStrField (k : String) : Option String → List (String × Json)
  | none => []
  | some s => [(k, .str s)]

/-- Serialize one `*bool` field under `omitempty`: nil is omitted. -/
def optBoolField (k : String) : Option Bool → List (String × Json)
  | none => []
  | some b => [(k, .bool b)]

/-- JSON body of `CreateInstanceVariableOptions` per its `json:"...,omitempty"`
tags, in declaration order. -/
def serializeCreateInstanceVariableOptions (o : CreateInstanceVariableOptions) :
    List (String × Json) :=
  optStrField "key" o.Key ++ optStrField "value" o.Value ++
    optStrField "description" o.Description ++ optBoolField "masked" o.Masked ++
    optBoolField "protected" o.Protected ++ optBoolField "raw" o.Raw ++
    optStrField "variable_type" o.VariableType

/-- JSON body of `UpdateInstanceVariableOptions` per its `json:"...,omitempty"`
tags, in declaration order. -/
def serializeUpdateInstanceVariableOptions (o : UpdateInstanceVariableOptions) :
    List (String × Json) :=
  optStrField "value" o.Value ++ optStrField "description" o.Description ++
    optBoolField "masked" o.Masked ++ optBoolField "protected" o.Protected ++
    optBoolField "raw" o.Raw ++ optStrField "variable_type" o.VariableType

/-- Query parameters of `ListOptions` per its `url:"...,omitempty"` tags:
a zero `int` is omitted. -/
def serializeListOptionsQuery (o : ListOptions) : List (String × String) :=
  (if o.page = 0 then [] else [("page", toString o.page)]) ++
    (if o.perPage = 0 then [] else [("per_page", toString o.perPage)])

/-- JSON body of `ListOptions` per its `json:"...,omitempty"` tags. -/
def serializeListOptionsJson (o : ListOptions) : List (String × Json) :=
  (if o.page = 0 then [] else [("page", Json.num o.page)]) ++
    (if o.perPage = 0 then [] else [("per_page", Json.num o.perPage)])

/-- Render one `*string` field as `url` query values: nil is omitted. -/
def optStrQuery (k : String) : Option String → List (String × String)
  | none => []
  | some s => [(k, s)]

/-- Render one `*bool` field as `url` query values: nil is omitted. -/
def optBoolQuery (k : String) : Option Bool → List (String × String)
  | none => []
  | some b => [(k, if b then "true" else "false")]

/-- Query parameters of `CreateInstanceVariableOptions` per its `url` tags. -/
def queryOfCreateInstanceVariableOptions (o : CreateInstanceVariableOptions) :
    List (String × String) :=
  optStrQuery "key" o.Key ++ optStrQuery "value" o.Value ++
    optStrQuery "description" o.Description ++ optBoolQuery "masked" o.Masked ++
    optBoolQuery "protected" o.Protected ++ optBoolQuery "raw" o.Raw ++
    optStrQuery "variable_type" o.VariableType

/-- Query parameters of `UpdateInstanceVariableOptions` per its `url` tags. -/
def queryOfUpdateInstanceVariableOptions (o : UpdateInstanceVariableOptions) :
    List (String × String) :=
  optStrQuery "value" o.Value ++ optStrQuery "description" o.Description ++
    optBoolQuery "masked" o.Masked ++ optBoolQuery "protected" o.Protected ++
    optBoolQuery "raw" o.Raw ++ optStrQuery "variable_type" o.VariableType

/-! ## The shared transport client

The services call `s.client.NewRequest(method, path, opt, options)` and
`s.client.Do(req, target)`.  The client itself is not part of the two source
files, so its observable behaviour is an oracle: which request constructions
fail, and what the HTTP exchange of a constructed request yields. -/

/-- A request-modifier function (`RequestOptionFunc`): opaque to the
services, which pass the slice through unchanged, so each one is modelled as
an abstract token. -/
abbrev RequestOptionFunc := Nat

/-- The four HTTP methods the two services use. -/
inductive HttpMethod where
  | get
  | post
  | put
  | delete
deriving DecidableEq

/-- The `opt` argument a service passes to `NewRequest`: the Go literal `nil`
interface, or a typed (and possibly nil) pointer to one of the option
structures. -/
inductive BodyArg where
  | empty
  | listInstanceVariables (o : Option ListInstanceVariablesOptions)
  | createInstanceVariable (o : Option CreateInstanceVariableOptions)
  | updateInstanceVariable (o : Option UpdateInstanceVariableOptions)
deriving DecidableEq

/-- The arguments of one `NewRequest` call. -/
structure NewRequestArgs where
  method : HttpMethod
  path : List Nat
  body : BodyArg
  optFns : List RequestOptionFunc
deriving DecidableEq

/-- A constructed outgoing request: method, path, query string, JSON body and
the request modifiers applied to it. -/
structure Request where
  method : HttpMethod
  path : List Nat
  query : List (String × String)
  body : Option Json
  optFns : List RequestOptionFunc

/-- Query parameters contributed by the `opt` argument of a GET request;
`query.Values` of a typed nil pointer is empty. -/
def queryOfBodyArg : BodyArg → List (String × String)
  | .empty => []
  | .listInstanceVariables none => []
  | .listInstanceVariables (some o) => serializeListOptionsQuery o
  | .createInstanceVariable none => []
  | .createInstanceVariable (some o) => queryOfCreateInstanceVariableOptions o
  | .updateInstanceVariable none => []
  | .updateInstanceVariable (some o) => queryOfUpdateInstanceVariableOptions o

/-- JSON body contributed by the `opt` argument of a POST/PUT/DELETE request;
`json.Marshal` of a typed nil pointer is `null`, and a `nil` interface means
no body at all. -/
def jsonBodyOfBodyArg : BodyArg → Option Json
  | .empty => none
  | .listInstanceVariables none => some .null
  | .listInstanceVariables (some o) => some (.obj (serializeListOptionsJson o))
  | .createInstanceVariable none => some .null
  | .createInstanceVariable (some o) =>
    some (.obj (serializeCreateInstanceVariableOptions o))
  | .updateInstanceVariable none => some .null
  | .updateInstanceVariable (some o) =>
    some (.obj (serializeUpdateInstanceVariableOptions o))

/-- Modelled from the spec: `Client.NewRequest` (shared client, not in src/)
builds the request for the given method and relative path, encoding a
non-nil `opt` as URL query parameters for a GET request and as the JSON
request body for a POST/PUT/DELETE request, and applying the request
modifiers to the result unchanged. -/
def mkRequest (a : NewRequestArgs) : Request :=
  match a.method with
  | .get =>
    { method := a.method, path := a.path, query := queryOfBodyArg a.body,
      body := none, optFns := a.optFns }
  | _ =>
    { method := a.method, path := a.path, query := [],
      body := jsonBodyOfBodyArg a.body, optFns := a.optFns }

/-- What the HTTP exchange of a request yields: a connectivity failure with
no response, or a response with a status code and a JSON body. -/
inductive HttpOutcome where
  | netError (msg : String)
  | response (status : Nat) (body : Json) (rawBody : String)

/-- The response metadata (`*Response`) handed back to the caller. -/
structure Response where
  statusCode : Nat
  rawBody : String
deriving DecidableEq

/-- The errors a call can surface: a transport-level connectivity failure, a
non-2xx status refinement carrying the status code, or a decode failure. -/
inductive GoErr where
  | transport (msg : String)
  | status (code : Nat) (rawBody : String)
  | decode (msg : String)
deriving DecidableEq

/-- The NotFound refinement: a status error whose code is 404. -/
def GoErr.isNotFound : GoErr → Bool
  | .status 404 _ => true
  | _ => false

/-- The shared transport client (`Client`), as the two services observe it:
an oracle deciding which `NewRequest` calls fail, and the HTTP outcome of
each constructed request. -/
structure Client where
  newRequestErr : NewRequestArgs → Option GoErr
  http : Request → HttpOutcome

/-- What one `Do` call returns: response metadata when available plus an
error, or the response and the decoded value. -/
inductive DoOutcome (α : Type) where
  | fail (resp : Option Response) (e : GoErr)
  | ok (resp : Response) (v : α)

/-- Modelled from the spec: `Client.Do` (shared client, not in src/) executes
the request, maps a non-2xx status to an error refinement keyed off the
status code, decodes a 2xx body into the target, and returns the response
metadata it obtained alongside any error. -/
def clientDo (c : Client) (req : Request) (dec : Json → Except String α) :
    DoOutcome α :=
  match c.http req with
  | .netError msg => .fail none (.transport msg)
  | .response status body rawBody =>
    if 200 ≤ status ∧ status ≤ 299 then
      match dec body with
      | .ok v => .ok ⟨status, rawBody⟩ v
      | .error m => .fail (some ⟨status, rawBody⟩) (.decode m)
    else
      .fail (some ⟨status, rawBody⟩) (.status status rawBody)

/-- Modelled from the spec: `Client.Do` with a nil decode target (as in
`RemoveVariable`) skips the decode step. -/
def clientDoNoTarget (c : Client) (req : Request) : DoOutcome Unit :=
  match c.http req with
  | .netError msg => .fail none (.transport msg)
  | .response status _ rawBody =>
    if 200 ≤ status ∧ status ≤ 299 then
      .ok ⟨status, rawBody⟩ ()
    else
      .fail (some ⟨status, rawBody⟩) (.status status rawBody)

/-! ## The two services and their operations

Each operation is embedded as a function of the service value; to make the
interaction with the collaborator checkable, the result also records the
trace of `NewRequest` argument tuples and of requests handed to `Do`.  The
returned service value is the receiver as it stands when the method returns
(the method bodies contain no field assignment). -/

/-- `InstanceVariablesService` (instance_variables.go): its only field is the
shared client reference. -/
structure InstanceVariablesService where
  client : Client

/-- `SidekiqService` (sidekiq_metrics.go): its only field is the shared
client reference. -/
structure SidekiqService where
  client : Client

/-- The observable outcome of one service call returning a decoded value:
the construction and execution traces, the decoded value, the response
metadata and the error, mirroring the Go triple return. -/
structure OpResult (α : Type) where
  newRequestCalls : List NewRequestArgs
  doCalls : List Request
  value : Option α
  resp : Option Response
  err : Option GoErr

/-- The observable outcome of `RemoveVariable`, whose Go return is only
`(*Response, error)`. -/
structure DelResult where
  newRequestCalls : List NewRequestArgs
  doCalls : List Request
  resp : Option Response
  err : Option GoErr

/-- The path `fmt.Sprintf("admin/ci/variables/%s", url.PathEscape(key))`
shared by `GetVariable`, `UpdateVariable` and `RemoveVariable`. -/
def instanceVariableKeyPath (key : List Nat) : List Nat :=
  ascii "admin/ci/variables/" ++ pathEscape key

/-- `ListVariables` (instance_variables.go): GET `admin/ci/variables` with
the listing options, decoding into `[]*InstanceVariable`. -/
def InstanceVariablesService.ListVariables (s : InstanceVariablesService)
    (opt : Option ListInstanceVariablesOptions)
    (options : List RequestOptionFunc) :
    OpResult (List (Option InstanceVariable)) × InstanceVariablesService :=
  let u := ascii "admin/ci/variables"
  let a : NewRequestArgs := ⟨.get, u, .listInstanceVariables opt, options⟩
  match s.client.newRequestErr a with
  | some e => (⟨[a], [], none, none, some e⟩, s)
  | none =>
    let req := mkRequest a
    match clientDo s.client req decodeInstanceVariableList with
    | .fail r e => (⟨[a], [req], none, r, some e⟩, s)
    | .ok r vs => (⟨[a], [req], some vs, some r, none⟩, s)

/-- `GetVariable` (instance_variables.go): GET
`admin/ci/variables/{escaped key}` with nil opt, decoding into a fresh
`InstanceVariable`. -/
def InstanceVariablesService.GetVariable (s : InstanceVariablesService)
    (key : List Nat) (options : List RequestOptionFunc) :
    OpResult InstanceVariable × InstanceVariablesService :=
  let u := instanceVariableKeyPath key
  let a : NewRequestArgs := ⟨.get, u, .empty, options⟩
  match s.client.newRequestErr a with
  | some e => (⟨[a], [], none, none, some e⟩, s)
  | none =>
    let req := mkRequest a
    match clientDo s.client req decodeInstanceVariable with
    | .fail r e => (⟨[a], [req], none, r, some e⟩, s)
    | .ok r v => (⟨[a], [req], some v, some r, none⟩, s)

/-- `CreateVariable` (instance_variables.go): POST `admin/ci/variables` with
the creation options, decoding into a fresh `InstanceVariable`. -/
def InstanceVariablesService.CreateVariable (s : InstanceVariablesService)
    (opt : Option CreateInstanceVariableOptions)
    (options : List RequestOptionFunc) :
    OpResult InstanceVariable × InstanceVariablesService :=
  let u := ascii "admin/ci/variables"
  let a : NewRequestArgs := ⟨.post, u, .createInstanceVariable opt, options⟩
  match s.client.newRequestErr a with
  | some e => (⟨[a], [], none, none, some e⟩, s)
  | none =>
    let req := mkRequest a
    match clientDo s.client req decodeInstanceVariable with
    | .fail r e => (⟨[a], [req], none, r, some e⟩, s)
    | .ok r v => (⟨[a], [req], some v, some r, none⟩, s)

/-- `UpdateVariable` (instance_variables.go): PUT
`admin/ci/variables/{escaped key}` with the update options, decoding into a
fresh `InstanceVariable`. -/
def InstanceVariablesService.UpdateVariable (s : InstanceVariablesService)
    (key : List Nat) (opt : Option UpdateInstanceVariableOptions)
    (options : List RequestOptionFunc) :
    OpResult InstanceVariable × InstanceVariablesService :=
  let u := instanceVariableKeyPath key
  let a : NewRequestArgs := ⟨.put, u, .updateInstanceVariable opt, options⟩
  match s.client.newRequestErr a with
  | some e => (⟨[a], [], none, none, some e⟩, s)
  | none =>
    let req := mkRequest a
    match clientDo s.client req decodeInstanceVariable with
    | .fail r e => (⟨[a], [req], none, r, some e⟩, s)
    | .ok r v => (⟨[a], [req], some v, some r, none⟩, s)

/-- `RemoveVariable` (instance_variables.go): DELETE
`admin/ci/variables/{escaped key}` with nil opt and nil decode target,
returning `Do`'s pair directly. -/
def InstanceVariablesService.RemoveVariable (s : InstanceVariablesService)
    (key : List Nat) (options : List RequestOptionFunc) :
    DelResult × InstanceVariablesService :=
  let u := instanceVariableKeyPath key
  let a : NewRequestArgs := ⟨.delete, u, .empty, options⟩
  match s.client.newRequestErr a with
  | some e => (⟨[a], [], none, some e⟩, s)
  | none =>
    let req := mkRequest a
    match clientDoNoTarget s.client req with
    | .fail r e => (⟨[a], [req], r, some e⟩, s)
    | .ok r _ => (⟨[a], [req], some r, none⟩, s)

/-- `GetQueueMetrics` (sidekiq_metrics.go): GET `/sidekiq/queue_metrics`
with nil opt, decoding into a fresh `QueueMetrics`. -/
def SidekiqService.GetQueueMetrics (s : SidekiqService)
    (options : List RequestOptionFunc) :
    OpResult QueueMetrics × SidekiqService :=
  let a : NewRequestArgs := ⟨.get, ascii "/sidekiq/queue_metrics", .empty, options⟩
  match s.client.newRequestErr a with
  | some e => (⟨[a], [], none, none, some e⟩, s)
  | none =>
    let req := mkRequest a
    match clientDo s.client req decodeQueueMetrics with
    | .fail r e => (⟨[a], [req], none, r, some e⟩, s)
    | .ok r v => (⟨[a], [req], some v, some r, none⟩, s)

/-- `GetProcessMetrics` (sidekiq_metrics.go): GET `/sidekiq/process_metrics`
with nil opt, decoding into a fresh `ProcessMetrics`. -/
def SidekiqService.GetProcessMetrics (s : SidekiqService)
    (options : List RequestOptionFunc) :
    OpResult ProcessMetrics × SidekiqService :=
  let a : NewRequestArgs := ⟨.get, ascii "/sidekiq/process_metrics", .empty, options⟩
  match s.client.newRequestErr a with
  | some e => (⟨[a], [], none, none, some e⟩, s)
  | none =>
    let req := mkRequest a
    match clientDo s.client req decodeProcessMetrics with
    | .fail r e => (⟨[a], [req], none, r, some e⟩, s)
    | .ok r v => (⟨[a], [req], some v, some r, none⟩, s)

/-- `GetJobStats` (sidekiq_metrics.go): GET `/sidekiq/job_stats` with nil
opt, decoding into a fresh `JobStats`. -/
def SidekiqService.GetJobStats (s : SidekiqService)
    (options : List RequestOptionFunc) :
    OpResult JobStats × SidekiqService :=
  let a : NewRequestArgs := ⟨.get, ascii "/sidekiq/job_stats", .empty, options⟩
  match s.client.newRequestErr a with
  | some e => (⟨[a], [], none, none, some e⟩, s)
  | none =>
    let req := mkRequest a
    match clientDo s.client req decodeJobStats with
    | .fail r e => (⟨[a], [req], none, r, some e⟩, s)
    | .ok r v => (⟨[a], [req], some v, some r, none⟩, s)

/-- `GetCompoundMetrics` (sidekiq_metrics.go): GET
`/sidekiq/compound_metrics` with nil opt, decoding into a fresh
`CompoundMetrics`. -/
def SidekiqService.GetCompoundMetrics (s : SidekiqService)
    (options : List RequestOptionFunc) :
    OpResult CompoundMetrics × SidekiqService :=
  let a : NewRequestArgs := ⟨.get, ascii "/sidekiq/compound_metrics", .empty, options⟩
  match s.client.newRequestErr a with
  | some e => (⟨[a], [], none, none, some e⟩, s)
  | none =>
    let req := mkRequest a
    match clientDo s.client req decodeCompoundMetrics with
    | .fail r e => (⟨[a], [req], none, r, some e⟩, s)
    | .ok r v => (⟨[a], [req], some v, some r, none⟩, s)

/-! ## The common call shape

Every value-returning operation of the two services has the same body:
construct, then execute-and-decode, propagating failures.  `runOp` (and
`runDel` for the target-less `RemoveVariable`) captures that shape once; each
operation is proved equal to an instance of it, and the structural lemmas are
proved generically. -/

def runOp (c : Client) (a : NewRequestArgs) (dec : Json → Except String α) :
    OpResult α :=
  match c.newRequestErr a with
  | some e => ⟨[a], [], none, none, some e⟩
  | none =>
    let req := mkRequest a
    match clientDo c req dec with
    | .fail r e => ⟨[a], [req], none, r, some e⟩
    | .ok r v => ⟨[a], [req], some v, some r, none⟩

def runDel (c : Client) (a : NewRequestArgs) : DelResult :=
  match c.newRequestErr a with
  | some e => ⟨[a], [], none, some e⟩
  | none =>
    let req := mkRequest a
    match clientDoNoTarget c req with
    | .fail r e => ⟨[a], [req], r, some e⟩
    | .ok r _ => ⟨[a], [req], some r, none⟩

/-- The `NewRequest` argument tuples of the nine operations. -/
def listVariablesArgs (opt : Option ListInstanceVariablesOptions)
    (options : List RequestOptionFunc) : NewRequestArgs :=
  ⟨.get, ascii "admin/ci/variables", .listInstanceVariables opt, options⟩

def getVariableArgs (key : List Nat) (options : List RequestOptionFunc) :
    NewRequestArgs :=
  ⟨.get, instanceVariableKeyPath key, .empty, options⟩

def createVariableArgs (opt : Option CreateInstanceVariableOptions)
    (options : List RequestOptionFunc) : NewRequestArgs :=
  ⟨.post, ascii "admin/ci/variables", .createInstanceVariable opt, options⟩

def updateVariableArgs (key : List Nat)
    (opt : Option UpdateInstanceVariableOptions)
    (options : List RequestOptionFunc) : NewRequestArgs :=
  ⟨.put, instanceVariableKeyPath key, .updateInstanceVariable opt, options⟩

def removeVariableArgs (key : List Nat) (options : List RequestOptionFunc) :
    NewRequestArgs :=
  ⟨.delete, instanceVariableKeyPath key, .empty, options⟩

def queueMetricsArgs (options : List RequestOptionFunc) : NewRequestArgs :=
  ⟨.get, ascii "/sidekiq/queue_metrics", .empty, options⟩

def processMetricsArgs (options : List RequestOptionFunc) : NewRequestArgs :=
  ⟨.get, ascii "/sidekiq/process_metrics", .empty, options⟩

def jobStatsArgs (options : List RequestOptionFunc) : NewRequestArgs :=
  ⟨.get, ascii "/sidekiq/job_stats", .empty, options⟩

def compoundMetricsArgs (options : List RequestOptionFunc) : NewRequestArgs :=
  ⟨.get, ascii "/sidekiq/compound_metrics", .empty, options⟩

theorem ListVariables_eq (s : InstanceVariablesService)
    (opt : Option ListInstanceVariablesOptions)
    (options : List RequestOptionFunc) :
    s.ListVariables opt options =
      (runOp s.client (listVariablesArgs opt options) decodeInstanceVariableList, s) := by
  cases hn : s.client.newRequestErr (listVariablesArgs opt options) with
  | some e =>
    simp only [listVariablesArgs] at hn
    simp [InstanceVariablesService.ListVariables, runOp, listVariablesArgs, hn]
  | none =>
    cases hd : clientDo s.client (mkRequest (listVariablesArgs opt options))
        decodeInstanceVariableList with
    | fail r e =>
      simp only [listVariablesArgs] at hn hd
      simp [InstanceVariablesService.ListVariables, runOp, listVariablesArgs,
        hn, hd]
    | ok r v =>
      simp only [listVariablesArgs] at hn hd
      simp [InstanceVariablesService.ListVariables, runOp, listVariablesArgs,
        hn, hd]

theorem GetVariable_eq (s : InstanceVariablesService) (key : List Nat) (options : List RequestOptionFunc) :
    s.GetVariable key options = (runOp s.client (getVariableArgs key options) decodeInstanceVariable, s) := by
  cases hn : s.client.newRequestErr (getVariableArgs key options) with
  | some e =>
    simp only [getVariableArgs] at hn
    simp [InstanceVariablesService.GetVariable, runOp, getVariableArgs, hn]
  | none =>
    cases hd : clientDo s.client (mkRequest (getVariableArgs key options)) decodeInstanceVariable with
    | fail r e =>
      simp only [getVariableArgs] at hn hd
      simp [InstanceVariablesService.GetVariable, runOp, getVariableArgs, hn, hd]
    | ok r v =>
      simp only [getVariableArgs] at hn hd
      simp [InstanceVariablesService.GetVariable, runOp, getVariableArgs, hn, hd]

theorem CreateVariable_eq (s : InstanceVariablesService) (opt : Option CreateInstanceVariableOptions) (options : List RequestOptionFunc) :
    s.CreateVariable opt options = (runOp s.client (createVariableArgs opt options) decodeInstanceVariable, s) := by
  cases hn : s.client.newRequestErr (createVariableArgs opt options) with
  | some e =>
    simp only [createVariableArgs] at hn
    simp [InstanceVariablesService.CreateVariable, runOp, createVariableArgs, hn]
  | none =>
    cases hd : clientDo s.client (mkRequest (createVariableArgs opt options)) decodeInstanceVariable with
    | fail r e =>
      simp only [createVariableArgs] at hn hd
      simp [InstanceVariablesService.CreateVariable, runOp, createVariableArgs, hn, hd]
    | ok r v =>
      simp only [createVariableArgs] at hn hd
      simp [InstanceVariablesService.CreateVariable, runOp, createVariableArgs, hn, hd]

theorem UpdateVariable_eq (s : InstanceVariablesService) (key : List Nat) (opt : Option UpdateInstanceVariableOptions) (options : List RequestOptionFunc) :
    s.UpdateVariable key opt options = (runOp s.client (updateVariableArgs key opt options) decodeInstanceVariable, s) := by
  cases hn : s.client.newRequestErr (updateVariableArgs key opt options) with
  | some e =>
    simp only [updateVariableArgs] at hn
    simp [InstanceVariablesService.UpdateVariable, runOp, updateVariableArgs, hn]
  | none =>
    cases hd : clientDo s.client (mkRequest (updateVariableArgs key opt options)) decodeInstanceVariable with
    | fail r e =>
      simp only [updateVariableArgs] at hn hd
      simp [InstanceVariablesService.UpdateVariable, runOp, updateVariableArgs, hn, hd]
    | ok r v =>
      simp only [updateVariableArgs] at hn hd
      simp [InstanceVariablesService.UpdateVariable, runOp, updateVariableArgs, hn, hd]

theorem GetQueueMetrics_eq (s : SidekiqService) (options : List RequestOptionFunc) :
    s.GetQueueMetrics options = (runOp s.client (queueMetricsArgs options) decodeQueueMetrics, s) := by
  cases hn : s.client.newRequestErr (queueMetricsArgs options) with
  | some e =>
    simp only [queueMetricsArgs] at hn
    simp [SidekiqService.GetQueueMetrics, runOp, queueMetricsArgs, hn]
  | none =>
    cases hd : clientDo s.client (mkRequest (queueMetricsArgs options)) decodeQueueMetrics with
    | fail r e =>
      simp only [queueMetricsArgs] at hn hd
      simp [SidekiqService.GetQueueMetrics, runOp, queueMetricsArgs, hn, hd]
    | ok r v =>
      simp only [queueMetricsArgs] at hn hd
      simp [SidekiqService.GetQueueMetrics, runOp, queueMetricsArgs, hn, hd]

theorem GetProcessMetrics_eq (s : SidekiqService) (options : List RequestOptionFunc) :
    s.GetProcessMetrics options = (runOp s.client (processMetricsArgs options) decodeProcessMetrics, s) := by
  cases hn : s.client.newRequestErr (processMetricsArgs options) with
  | some e =>
    simp only [processMetricsArgs] at hn
    simp [SidekiqService.GetProcessMetrics, runOp, processMetricsArgs, hn]
  | none =>
    cases hd : clientDo s.client (mkRequest (processMetricsArgs options)) decodeProcessMetrics with
    | fail r e =>
      simp only [processMetricsArgs] at hn hd
      simp [SidekiqService.GetProcessMetrics, runOp, processMetricsArgs, hn, hd]
    | ok r v =>
      simp only [processMetricsArgs] at hn hd
      simp [SidekiqService.GetProcessMetrics, runOp, processMetricsArgs, hn, hd]

theorem GetJobStats_eq (s : SidekiqService) (options : List RequestOptionFunc) :
    s.GetJobStats options = (runOp s.client (jobStatsArgs options) decodeJobStats, s) := by
  cases hn : s.client.newRequestErr (jobStatsArgs options) with
  | some e =>
    simp only [jobStatsArgs] at hn
    simp [SidekiqService.GetJobStats, runOp, jobStatsArgs, hn]
  | none =>
    cases hd : clientDo s.client (mkRequest (jobStatsArgs options)) decodeJobStats with
    | fail r e =>
      simp only [jobStatsArgs] at hn hd
      simp [SidekiqService.GetJobStats, runOp, jobStatsArgs, hn, hd]
    | ok r v =>
      simp only [jobStatsArgs] at hn hd
      simp [SidekiqService.GetJobStats, runOp, jobStatsArgs, hn, hd]

theorem GetCompoundMetrics_eq (s : SidekiqService) (options : List RequestOptionFunc) :
    s.GetCompoundMetrics options = (runOp s.client (compoundMetricsArgs options) decodeCompoundMetrics, s) := by
  cases hn : s.client.newRequestErr (compoundMetricsArgs options) with
  | some e =>
    simp only [compoundMetricsArgs] at hn
    simp [SidekiqService.GetCompoundMetrics, runOp, compoundMetricsArgs, hn]
  | none =>
    cases hd : clientDo s.client (mkRequest (compoundMetricsArgs options)) decodeCompoundMetrics with
    | fail r e =>
      simp only [compoundMetricsArgs] at hn hd
      simp [SidekiqService.GetCompoundMetrics, runOp, compoundMetricsArgs, hn, hd]
    | ok r v =>
      simp only [compoundMetricsArgs] at hn hd
      simp [SidekiqService.GetCompoundMetrics, runOp, compoundMetricsArgs, hn, hd]

theorem RemoveVariable_eq (s : InstanceVariablesService) (key : List Nat)
    (options : List RequestOptionFunc) :
    s.RemoveVariable key options =
      (runDel s.client (removeVariableArgs key options), s) := by
  cases hn : s.client.newRequestErr (removeVariableArgs key options) with
  | some e =>
    simp only [removeVariableArgs] at hn
    simp [InstanceVariablesService.RemoveVariable, runDel, removeVariableArgs, hn]
  | none =>
    cases hd : clientDoNoTarget s.client (mkRequest (removeVariableArgs key options)) with
    | fail r e =>
      simp only [removeVariableArgs] at hn hd
      simp [InstanceVariablesService.RemoveVariable, runDel, removeVariableArgs, hn, hd]
    | ok r v =>
      simp only [removeVariableArgs] at hn hd
      simp [InstanceVariablesService.RemoveVariable, runDel, removeVariableArgs, hn, hd]


theorem runOp_construct_fail (c : Client) (a : NewRequestArgs)
    (dec : Json → Except String α) (e : GoErr)
    (hn : c.newRequestErr a = some e) :
    runOp c a dec = ⟨[a], [], none, none, some e⟩ := by
  simp [runOp, hn]

theorem runOp_do_fail (c : Client) (a : NewRequestArgs)
    (dec : Json → Except String α) (re : Option Response) (e : GoErr)
    (hn : c.newRequestErr a = none)
    (hd : clientDo c (mkRequest a) dec = .fail re e) :
    runOp c a dec = ⟨[a], [mkRequest a], none, re, some e⟩ := by
  simp [runOp, hn, hd]

theorem runOp_ok (c : Client) (a : NewRequestArgs)
    (dec : Json → Except String α) (r : Response) (v : α)
    (hn : c.newRequestErr a = none)
    (hd : clientDo c (mkRequest a) dec = .ok r v) :
    runOp c a dec = ⟨[a], [mkRequest a], some v, some r, none⟩ := by
  simp [runOp, hn, hd]

theorem runOp_newRequestCalls (c : Client) (a : NewRequestArgs)
    (dec : Json → Except String α) :
    (runOp c a dec).newRequestCalls = [a] := by
  cases hn : c.newRequestErr a with
  | some e => simp [runOp, hn]
  | none =>
    cases hd : clientDo c (mkRequest a) dec with
    | fail re e => simp [runOp, hn, hd]
    | ok r v => simp [runOp, hn, hd]

theorem runOp_doCalls_mem (c : Client) (a : NewRequestArgs)
    (dec : Json → Except String α) :
    ∀ r ∈ (runOp c a dec).doCalls, r = mkRequest a := by
  cases hn : c.newRequestErr a with
  | some e => simp [runOp, hn]
  | none =>
    cases hd : clientDo c (mkRequest a) dec with
    | fail re e => simp [runOp, hn, hd]
    | ok r v => simp [runOp, hn, hd]

theorem runOp_doCalls_length_le (c : Client) (a : NewRequestArgs)
    (dec : Json → Except String α) :
    (runOp c a dec).doCalls.length ≤ 1 := by
  cases hn : c.newRequestErr a with
  | some e => simp [runOp, hn]
  | none =>
    cases hd : clientDo c (mkRequest a) dec with
    | fail re e => simp [runOp, hn, hd]
    | ok r v => simp [runOp, hn, hd]

theorem runOp_doCalls_of_construct_ok (c : Client) (a : NewRequestArgs)
    (dec : Json → Except String α) (hn : c.newRequestErr a = none) :
    (runOp c a dec).doCalls = [mkRequest a] := by
  cases hd : clientDo c (mkRequest a) dec with
  | fail re e => simp [runOp, hn, hd]
  | ok r v => simp [runOp, hn, hd]

theorem runDel_construct_fail (c : Client) (a : NewRequestArgs) (e : GoErr)
    (hn : c.newRequestErr a = some e) :
    runDel c a = ⟨[a], [], none, some e⟩ := by
  simp [runDel, hn]

theorem runDel_do_fail (c : Client) (a : NewRequestArgs)
    (re : Option Response) (e : GoErr) (hn : c.newRequestErr a = none)
    (hd : clientDoNoTarget c (mkRequest a) = .fail re e) :
    runDel c a = ⟨[a], [mkRequest a], re, some e⟩ := by
  simp [runDel, hn, hd]

theorem runDel_newRequestCalls (c : Client) (a : NewRequestArgs) :
    (runDel c a).newRequestCalls = [a] := by
  cases hn : c.newRequestErr a with
  | some e => simp [runDel, hn]
  | none =>
    cases hd : clientDoNoTarget c (mkRequest a) with
    | fail re e => simp [runDel, hn, hd]
    | ok r v => simp [runDel, hn, hd]

theorem runDel_doCalls_mem (c : Client) (a : NewRequestArgs) :
    ∀ r ∈ (runDel c a).doCalls, r = mkRequest a := by
  cases hn : c.newRequestErr a with
  | some e => simp [runDel, hn]
  | none =>
    cases hd : clientDoNoTarget c (mkRequest a) with
    | fail re e => simp [runDel, hn, hd]
    | ok r v => simp [runDel, hn, hd]

theorem clientDo_net_error (c : Client) (req : Request)
    (dec : Json → Except String α) (msg : String)
    (hh : c.http req = .netError msg) :
    clientDo c req dec = .fail none (.transport msg) := by
  simp [clientDo, hh]

theorem clientDo_status_error (c : Client) (req : Request)
    (dec : Json → Except String α) (status : Nat) (j : Json) (raw : String)
    (hh : c.http req = .response status j raw)
    (hst : ¬(200 ≤ status ∧ status ≤ 299)) :
    clientDo c req dec = .fail (some ⟨status, raw⟩) (.status status raw) := by
  simp [clientDo, hh, hst]

theorem clientDo_decode_ok (c : Client) (req : Request)
    (dec : Json → Except String α) (status : Nat) (j : Json) (raw : String)
    (v : α) (hh : c.http req = .response status j raw)
    (hst : 200 ≤ status ∧ status ≤ 299) (hdec : dec j = .ok v) :
    clientDo c req dec = .ok ⟨status, raw⟩ v := by
  simp [clientDo, hh, hst, hdec]

theorem clientDo_decode_error (c : Client) (req : Request)
    (dec : Json → Except String α) (status : Nat) (j : Json) (raw : String)
    (m : String) (hh : c.http req = .response status j raw)
    (hst : 200 ≤ status ∧ status ≤ 299) (hdec : dec j = .error m) :
    clientDo c req dec = .fail (some ⟨status, raw⟩) (.decode m) := by
  simp [clientDo, hh, hst, hdec]

/-! ## Concrete clients used to exercise the theorems -/

/-- A client on which every construction succeeds and every exchange returns
the given response. -/
def fixtureClient (status : Nat) (body : Json) (rawBody : String) : Client :=
  ⟨fun _ => none, fun _ => .response status body rawBody⟩

/-- A client on which every request construction fails with the given error. -/
def brokenClient (e : GoErr) : Client :=
  ⟨fun _ => some e, fun _ => .netError "unreachable"⟩

/-- A client whose constructions succeed but whose exchanges never reach a
server. -/
def offlineClient (msg : String) : Client :=
  ⟨fun _ => none, fun _ => .netError msg⟩


/-! ## The claims -/

/-- C1: each of the five instance-variable operations sends exactly the
method and fixed resource path of the wire contract: `ListVariables` issues
GET to `admin/ci/variables` with the pagination options as query parameters;
`GetVariable` issues GET and `RemoveVariable` issues DELETE to
`admin/ci/variables/{escaped key}` with no body; `CreateVariable` issues POST
to `admin/ci/variables` and `UpdateVariable` issues PUT to
`admin/ci/variables/{escaped key}`, each with the option fields as JSON
body. -/
theorem instance_variables_wire_contract (s : InstanceVariablesService)
    (opt : Option ListInstanceVariablesOptions)
    (copt : Option CreateInstanceVariableOptions)
    (uopt : Option UpdateInstanceVariableOptions)
    (key : List Nat) (options : List RequestOptionFunc) :
    ((s.ListVariables opt options).1.newRequestCalls =
        [⟨.get, ascii "admin/ci/variables", .listInstanceVariables opt, options⟩] ∧
      ∀ r ∈ (s.ListVariables opt options).1.doCalls,
        r.method = .get ∧ r.path = ascii "admin/ci/variables" ∧
          r.query = queryOfBodyArg (.listInstanceVariables opt) ∧ r.body = none) ∧
    ((s.GetVariable key options).1.newRequestCalls =
        [⟨.get, instanceVariableKeyPath key, .empty, options⟩] ∧
      ∀ r ∈ (s.GetVariable key options).1.doCalls,
        r.method = .get ∧ r.path = instanceVariableKeyPath key ∧
          r.query = [] ∧ r.body = none) ∧
    ((s.CreateVariable copt options).1.newRequestCalls =
        [⟨.post, ascii "admin/ci/variables", .createInstanceVariable copt, options⟩] ∧
      ∀ r ∈ (s.CreateVariable copt options).1.doCalls,
        r.method = .post ∧ r.path = ascii "admin/ci/variables" ∧ r.query = [] ∧
          r.body = jsonBodyOfBodyArg (.createInstanceVariable copt)) ∧
    ((s.UpdateVariable key uopt options).1.newRequestCalls =
        [⟨.put, instanceVariableKeyPath key, .updateInstanceVariable uopt, options⟩] ∧
      ∀ r ∈ (s.UpdateVariable key uopt options).1.doCalls,
        r.method = .put ∧ r.path = instanceVariableKeyPath key ∧ r.query = [] ∧
          r.body = jsonBodyOfBodyArg (.updateInstanceVariable uopt)) ∧
    ((s.RemoveVariable key options).1.newRequestCalls =
        [⟨.delete, instanceVariableKeyPath key, .empty, options⟩] ∧
      ∀ r ∈ (s.RemoveVariable key options).1.doCalls,
        r.method = .delete ∧ r.path = instanceVariableKeyPath key ∧
          r.query = [] ∧ r.body = none) := by
  refine ⟨⟨?_, ?_⟩, ⟨?_, ?_⟩, ⟨?_, ?_⟩, ⟨?_, ?_⟩, ⟨?_, ?_⟩⟩
  · rw [ListVariables_eq]
    exact runOp_newRequestCalls _ _ _
  · intro r hr
    rw [ListVariables_eq] at hr
    have heq := runOp_doCalls_mem _ _ _ r hr
    subst heq
    exact ⟨rfl, rfl, rfl, rfl⟩
  · rw [GetVariable_eq]
    exact runOp_newRequestCalls _ _ _
  · intro r hr
    rw [GetVariable_eq] at hr
    have heq := runOp_doCalls_mem _ _ _ r hr
    subst heq
    exact ⟨rfl, rfl, rfl, rfl⟩
  · rw [CreateVariable_eq]
    exact runOp_newRequestCalls _ _ _
  · intro r hr
    rw [CreateVariable_eq] at hr
    have heq := runOp_doCalls_mem _ _ _ r hr
    subst heq
    exact ⟨rfl, rfl, rfl, rfl⟩
  · rw [UpdateVariable_eq]
    exact runOp_newRequestCalls _ _ _
  · intro r hr
    rw [UpdateVariable_eq] at hr
    have heq := runOp_doCalls_mem _ _ _ r hr
    subst heq
    exact ⟨rfl, rfl, rfl, rfl⟩
  · rw [RemoveVariable_eq]
    exact runDel_newRequestCalls _ _
  · intro r hr
    rw [RemoveVariable_eq] at hr
    have heq := runDel_doCalls_mem _ _ r hr
    subst heq
    exact ⟨rfl, rfl, rfl, rfl⟩

/-- C7: each of the four Sidekiq accessors issues a single GET with no body
and no query against its fixed path, taking no parameters beyond the request
modifiers, which appear unchanged both in the construction call and on the
constructed request. -/
theorem sidekiq_wire_contract (t : SidekiqService)
    (options : List RequestOptionFunc) :
    ((t.GetQueueMetrics options).1.newRequestCalls =
        [⟨.get, ascii "/sidekiq/queue_metrics", .empty, options⟩] ∧
      ∀ r ∈ (t.GetQueueMetrics options).1.doCalls,
        r.method = .get ∧ r.path = ascii "/sidekiq/queue_metrics" ∧
          r.query = [] ∧ r.body = none ∧ r.optFns = options) ∧
    ((t.GetProcessMetrics options).1.newRequestCalls =
        [⟨.get, ascii "/sidekiq/process_metrics", .empty, options⟩] ∧
      ∀ r ∈ (t.GetProcessMetrics options).1.doCalls,
        r.method = .get ∧ r.path = ascii "/sidekiq/process_metrics" ∧
          r.query = [] ∧ r.body = none ∧ r.optFns = options) ∧
    ((t.GetJobStats options).1.newRequestCalls =
        [⟨.get, ascii "/sidekiq/job_stats", .empty, options⟩] ∧
      ∀ r ∈ (t.GetJobStats options).1.doCalls,
        r.method = .get ∧ r.path = ascii "/sidekiq/job_stats" ∧
          r.query = [] ∧ r.body = none ∧ r.optFns = options) ∧
    ((t.GetCompoundMetrics options).1.newRequestCalls =
        [⟨.get, ascii "/sidekiq/compound_metrics", .empty, options⟩] ∧
      ∀ r ∈ (t.GetCompoundMetrics options).1.doCalls,
        r.method = .get ∧ r.path = ascii "/sidekiq/compound_metrics" ∧
          r.query = [] ∧ r.body = none ∧ r.optFns = options) := by
  refine ⟨⟨?_, ?_⟩, ⟨?_, ?_⟩, ⟨?_, ?_⟩, ⟨?_, ?_⟩⟩
  · rw [GetQueueMetrics_eq]
    exact runOp_newRequestCalls _ _ _
  · intro r hr
    rw [GetQueueMetrics_eq] at hr
    have heq := runOp_doCalls_mem _ _ _ r hr
    subst heq
    exact ⟨rfl, rfl, rfl, rfl, rfl⟩
  · rw [GetProcessMetrics_eq]
    exact runOp_newRequestCalls _ _ _
  · intro r hr
    rw [GetProcessMetrics_eq] at hr
    have heq := runOp_doCalls_mem _ _ _ r hr
    subst heq
    exact ⟨rfl, rfl, rfl, rfl, rfl⟩
  · rw [GetJobStats_eq]
    exact runOp_newRequestCalls _ _ _
  · intro r hr
    rw [GetJobStats_eq] at hr
    have heq := runOp_doCalls_mem _ _ _ r hr
    subst heq
    exact ⟨rfl, rfl, rfl, rfl, rfl⟩
  · rw [GetCompoundMetrics_eq]
    exact runOp_newRequestCalls _ _ _
  · intro r hr
    rw [GetCompoundMetrics_eq] at hr
    have heq := runOp_doCalls_mem _ _ _ r hr
    subst heq
    exact ⟨rfl, rfl, rfl, rfl, rfl⟩

/-- C5: `GetCompoundMetrics` performs at most one transport execution, and
exactly one as soon as request construction succeeds; every executed request
is the single GET against `/sidekiq/compound_metrics`, so the result is never
assembled from the three individual metric requests. -/
theorem compound_metrics_single_request (t : SidekiqService)
    (options : List RequestOptionFunc) :
    (t.GetCompoundMetrics options).1.newRequestCalls =
      [⟨.get, ascii "/sidekiq/compound_metrics", .empty, options⟩] ∧
    (t.GetCompoundMetrics options).1.doCalls.length ≤ 1 ∧
    (∀ r ∈ (t.GetCompoundMetrics options).1.doCalls,
      r.method = .get ∧ r.path = ascii "/sidekiq/compound_metrics") ∧
    (t.client.newRequestErr (compoundMetricsArgs options) = none →
      (t.GetCompoundMetrics options).1.doCalls =
        [mkRequest (compoundMetricsArgs options)]) := by
  refine ⟨?_, ?_, ?_, ?_⟩
  · rw [GetCompoundMetrics_eq]
    exact runOp_newRequestCalls _ _ _
  · rw [GetCompoundMetrics_eq]
    exact runOp_doCalls_length_le _ _ _
  · intro r hr
    rw [GetCompoundMetrics_eq] at hr
    have heq := runOp_doCalls_mem _ _ _ r hr
    subst heq
    exact ⟨rfl, rfl⟩
  · intro hn
    rw [GetCompoundMetrics_eq]
    exact runOp_doCalls_of_construct_ok _ _ _ hn

/-- C9: every operation of both services leaves the service value unchanged
(the receiver returned alongside the result equals the receiver the call
started from, on success and on failure alike), and the outcome depends on
nothing outside the shared client reference. -/
theorem services_state_invariant (s s2 : InstanceVariablesService)
    (t t2 : SidekiqService) (opt : Option ListInstanceVariablesOptions)
    (copt : Option CreateInstanceVariableOptions)
    (uopt : Option UpdateInstanceVariableOptions)
    (key : List Nat) (options : List RequestOptionFunc) :
    ((s.ListVariables opt options).2 = s ∧
      (s.GetVariable key options).2 = s ∧
      (s.CreateVariable copt options).2 = s ∧
      (s.UpdateVariable key uopt options).2 = s ∧
      (s.RemoveVariable key options).2 = s ∧
      (t.GetQueueMetrics options).2 = t ∧
      (t.GetProcessMetrics options).2 = t ∧
      (t.GetJobStats options).2 = t ∧
      (t.GetCompoundMetrics options).2 = t) ∧
    (s.client = s2.client →
      (s.ListVariables opt options).1 = (s2.ListVariables opt options).1 ∧
      (s.GetVariable key options).1 = (s2.GetVariable key options).1 ∧
      (s.CreateVariable copt options).1 = (s2.CreateVariable copt options).1 ∧
      (s.UpdateVariable key uopt options).1 = (s2.UpdateVariable key uopt options).1 ∧
      (s.RemoveVariable key options).1 = (s2.RemoveVariable key options).1) ∧
    (t.client = t2.client →
      (t.GetQueueMetrics options).1 = (t2.GetQueueMetrics options).1 ∧
      (t.GetProcessMetrics options).1 = (t2.GetProcessMetrics options).1 ∧
      (t.GetJobStats options).1 = (t2.GetJobStats options).1 ∧
      (t.GetCompoundMetrics options).1 = (t2.GetCompoundMetrics options).1) := by
  refine ⟨⟨?_, ?_, ?_, ?_, ?_, ?_, ?_, ?_, ?_⟩, ?_, ?_⟩
  · rw [ListVariables_eq]
  · rw [GetVariable_eq]
  · rw [CreateVariable_eq]
  · rw [UpdateVariable_eq]
  · rw [RemoveVariable_eq]
  · rw [GetQueueMetrics_eq]
  · rw [GetProcessMetrics_eq]
  · rw [GetJobStats_eq]
  · rw [GetCompoundMetrics_eq]
  · intro hc
    refine ⟨?_, ?_, ?_, ?_, ?_⟩
    · rw [ListVariables_eq, ListVariables_eq, hc]
    · rw [GetVariable_eq, GetVariable_eq, hc]
    · rw [CreateVariable_eq, CreateVariable_eq, hc]
    · rw [UpdateVariable_eq, UpdateVariable_eq, hc]
    · rw [RemoveVariable_eq, RemoveVariable_eq, hc]
  · intro hc
    refine ⟨?_, ?_, ?_, ?_⟩
    · rw [GetQueueMetrics_eq, GetQueueMetrics_eq, hc]
    · rw [GetProcessMetrics_eq, GetProcessMetrics_eq, hc]
    · rw [GetJobStats_eq, GetJobStats_eq, hc]
    · rw [GetCompoundMetrics_eq, GetCompoundMetrics_eq, hc]


theorem ascii_admin_path_split :
    ascii "admin/ci/variables/" = ascii "admin/ci/variables" ++ [47] := by
  decide

theorem instanceVariableKeyPath_lastSegment (key : List Nat) :
    lastSegment (instanceVariableKeyPath key) = pathEscape key := by
  unfold instanceVariableKeyPath
  rw [ascii_admin_path_split, List.append_assoc, List.singleton_append]
  exact lastSegment_concat _ _
    (fun x hx heq => slash_not_mem_pathEscape key (heq ▸ hx))

/-- C2: for every key, the path built by `GetVariable`, `UpdateVariable` and
`RemoveVariable` carries the percent-encoded key as its last path segment,
and percent-decoding that segment recovers the original key exactly —
including keys containing `/`, `%` or whitespace. -/
theorem key_percent_roundtrip (s : InstanceVariablesService) (key : List Nat)
    (uopt : Option UpdateInstanceVariableOptions)
    (options : List RequestOptionFunc) (hbytes : ∀ b ∈ key, b < 256) :
    (∀ a ∈ (s.GetVariable key options).1.newRequestCalls,
      lastSegment a.path = pathEscape key ∧
        pathUnescape (lastSegment a.path) = some key) ∧
    (∀ a ∈ (s.UpdateVariable key uopt options).1.newRequestCalls,
      lastSegment a.path = pathEscape key ∧
        pathUnescape (lastSegment a.path) = some key) ∧
    (∀ a ∈ (s.RemoveVariable key options).1.newRequestCalls,
      lastSegment a.path = pathEscape key ∧
        pathUnescape (lastSegment a.path) = some key) := by
  have hseg := instanceVariableKeyPath_lastSegment key
  have hrt : pathUnescape (lastSegment (instanceVariableKeyPath key)) = some key := by
    rw [hseg]
    exact pathUnescape_pathEscape key hbytes
  refine ⟨?_, ?_, ?_⟩
  · intro a ha
    rw [GetVariable_eq, runOp_newRequestCalls] at ha
    have := List.mem_singleton.mp ha
    subst this
    exact ⟨hseg, hrt⟩
  · intro a ha
    rw [UpdateVariable_eq, runOp_newRequestCalls] at ha
    have := List.mem_singleton.mp ha
    subst this
    exact ⟨hseg, hrt⟩
  · intro a ha
    rw [RemoveVariable_eq, runDel_newRequestCalls] at ha
    have := List.mem_singleton.mp ha
    subst this
    exact ⟨hseg, hrt⟩

theorem optStrField_fst (k : String) (v : Option String) :
    ∀ p ∈ optStrField k v, p.1 = k := by
  cases v <;> simp [optStrField]

theorem optBoolField_fst (k : String) (v : Option Bool) :
    ∀ p ∈ optBoolField k v, p.1 = k := by
  cases v <;> simp [optBoolField]

/-- C3: for every key and every update option set, the serialized update
payload contains only the fields value, description, masked, protected, raw
and variable_type — never a key field — and that payload is exactly the body
of the request `UpdateVariable` executes. -/
theorem update_body_has_no_key_field (s : InstanceVariablesService)
    (key : List Nat) (o : UpdateInstanceVariableOptions)
    (options : List RequestOptionFunc) :
    (∀ p ∈ serializeUpdateInstanceVariableOptions o,
      p.1 ≠ "key" ∧
        p.1 ∈ (["value", "description", "masked", "protected", "raw",
          "variable_type"] : List String)) ∧
    (∀ r ∈ (s.UpdateVariable key (some o) options).1.doCalls,
      r.body = some (.obj (serializeUpdateInstanceVariableOptions o))) := by
  constructor
  · intro p hp
    unfold serializeUpdateInstanceVariableOptions at hp
    simp only [List.mem_append] at hp
    rcases hp with ((((h | h) | h) | h) | h) | h
    · have h1 := optStrField_fst _ _ p h
      rw [h1]
      exact ⟨by decide, by decide⟩
    · have h1 := optStrField_fst _ _ p h
      rw [h1]
      exact ⟨by decide, by decide⟩
    · have h1 := optBoolField_fst _ _ p h
      rw [h1]
      exact ⟨by decide, by decide⟩
    · have h1 := optBoolField_fst _ _ p h
      rw [h1]
      exact ⟨by decide, by decide⟩
    · have h1 := optBoolField_fst _ _ p h
      rw [h1]
      exact ⟨by decide, by decide⟩
    · have h1 := optStrField_fst _ _ p h
      rw [h1]
      exact ⟨by decide, by decide⟩
  · intro r hr
    rw [UpdateVariable_eq] at hr
    have heq := runOp_doCalls_mem _ _ _ r hr
    subst heq
    rfl


/-- C4: for every operation in both services, a failure of request
construction or of request execution/decoding is returned to the caller
exactly as the collaborator produced it, together with an absent decoded
result and with no further transport call. -/
theorem errors_propagate_verbatim (s : InstanceVariablesService)
    (t : SidekiqService) (opt : Option ListInstanceVariablesOptions)
    (copt : Option CreateInstanceVariableOptions)
    (uopt : Option UpdateInstanceVariableOptions) (key : List Nat)
    (options : List RequestOptionFunc) (e : GoErr) (re : Option Response) :
    (s.client.newRequestErr (listVariablesArgs opt options) = some e →
      (s.ListVariables opt options).1 = ⟨[listVariablesArgs opt options], [], none, none, some e⟩) ∧
    (s.client.newRequestErr (listVariablesArgs opt options) = none →
      clientDo s.client (mkRequest (listVariablesArgs opt options)) decodeInstanceVariableList = .fail re e →
      (s.ListVariables opt options).1 = ⟨[listVariablesArgs opt options], [mkRequest (listVariablesArgs opt options)], none, re, some e⟩) ∧
    (s.client.newRequestErr (getVariableArgs key options) = some e →
      (s.GetVariable key options).1 = ⟨[getVariableArgs key options], [], none, none, some e⟩) ∧
    (s.client.newRequestErr (getVariableArgs key options) = none →
      clientDo s.client (mkRequest (getVariableArgs key options)) decodeInstanceVariable = .fail re e →
      (s.GetVariable key options).1 = ⟨[getVariableArgs key options], [mkRequest (getVariableArgs key options)], none, re, some e⟩) ∧
    (s.client.newRequestErr (createVariableArgs copt options) = some e →
      (s.CreateVariable copt options).1 = ⟨[createVariableArgs copt options], [], none, none, some e⟩) ∧
    (s.client.newRequestErr (createVariableArgs copt options) = none →
      clientDo s.client (mkRequest (createVariableArgs copt options)) decodeInstanceVariable = .fail re e →
      (s.CreateVariable copt options).1 = ⟨[createVariableArgs copt options], [mkRequest (createVariableArgs copt options)], none, re, some e⟩) ∧
    (s.client.newRequestErr (updateVariableArgs key uopt options) = some e →
      (s.UpdateVariable key uopt options).1 = ⟨[updateVariableArgs key uopt options], [], none, none, some e⟩) ∧
    (s.client.newRequestErr (updateVariableArgs key uopt options) = none →
      clientDo s.client (mkRequest (updateVariableArgs key uopt options)) decodeInstanceVariable = .fail re e →
      (s.UpdateVariable key uopt options).1 = ⟨[updateVariableArgs key uopt options], [mkRequest (updateVariableArgs key uopt options)], none, re, some e⟩) ∧
    (s.client.newRequestErr (removeVariableArgs key options) = some e →
      (s.RemoveVariable key options).1 = ⟨[removeVariableArgs key options], [], none, some e⟩) ∧
    (s.client.newRequestErr (removeVariableArgs key options) = none →
      clientDoNoTarget s.client (mkRequest (removeVariableArgs key options)) = .fail re e →
      (s.RemoveVariable key options).1 = ⟨[removeVariableArgs key options], [mkRequest (removeVariableArgs key options)], re, some e⟩) ∧
    (t.client.newRequestErr (queueMetricsArgs options) = some e →
      (t.GetQueueMetrics options).1 = ⟨[queueMetricsArgs options], [], none, none, some e⟩) ∧
    (t.client.newRequestErr (queueMetricsArgs options) = none →
      clientDo t.client (mkRequest (queueMetricsArgs options)) decodeQueueMetrics = .fail re e →
      (t.GetQueueMetrics options).1 = ⟨[queueMetricsArgs options], [mkRequest (queueMetricsArgs options)], none, re, some e⟩) ∧
    (t.client.newRequestErr (processMetricsArgs options) = some e →
      (t.GetProcessMetrics options).1 = ⟨[processMetricsArgs options], [], none, none, some e⟩) ∧
    (t.client.newRequestErr (processMetricsArgs options) = none →
      clientDo t.client (mkRequest (processMetricsArgs options)) decodeProcessMetrics = .fail re e →
      (t.GetProcessMetrics options).1 = ⟨[processMetricsArgs options], [mkRequest (processMetricsArgs options)], none, re, some e⟩) ∧
    (t.client.newRequestErr (jobStatsArgs options) = some e →
      (t.GetJobStats options).1 = ⟨[jobStatsArgs options], [], none, none, some e⟩) ∧
    (t.client.newRequestErr (jobStatsArgs options) = none →
      clientDo t.client (mkRequest (jobStatsArgs options)) decodeJobStats = .fail re e →
      (t.GetJobStats options).1 = ⟨[jobStatsArgs options], [mkRequest (jobStatsArgs options)], none, re, some e⟩) ∧
    (t.client.newRequestErr (compoundMetricsArgs options) = some e →
      (t.GetCompoundMetrics options).1 = ⟨[compoundMetricsArgs options], [], none, none, some e⟩) ∧
    (t.client.newRequestErr (compoundMetricsArgs options) = none →
      clientDo t.client (mkRequest (compoundMetricsArgs options)) decodeCompoundMetrics = .fail re e →
      (t.GetCompoundMetrics options).1 = ⟨[compoundMetricsArgs options], [mkRequest (compoundMetricsArgs options)], none, re, some e⟩) := by
  refine ⟨?_, ?_, ?_, ?_, ?_, ?_, ?_, ?_, ?_, ?_, ?_, ?_, ?_, ?_, ?_, ?_, ?_, ?_⟩
  · intro hn
    rw [ListVariables_eq]
    exact runOp_construct_fail _ _ _ _ hn
  · intro hn hd
    rw [ListVariables_eq]
    exact runOp_do_fail _ _ _ _ _ hn hd
  · intro hn
    rw [GetVariable_eq]
    exact runOp_construct_fail _ _ _ _ hn
  · intro hn hd
    rw [GetVariable_eq]
    exact runOp_do_fail _ _ _ _ _ hn hd
  · intro hn
    rw [CreateVariable_eq]
    exact runOp_construct_fail _ _ _ _ hn
  · intro hn hd
    rw [CreateVariable_eq]
    exact runOp_do_fail _ _ _ _ _ hn hd
  · intro hn
    rw [UpdateVariable_eq]
    exact runOp_construct_fail _ _ _ _ hn
  · intro hn hd
    rw [UpdateVariable_eq]
    exact runOp_do_fail _ _ _ _ _ hn hd
  · intro hn
    rw [RemoveVariable_eq]
    exact runDel_construct_fail _ _ _ hn
  · intro hn hd
    rw [RemoveVariable_eq]
    exact runDel_do_fail _ _ _ _ hn hd
  · intro hn
    rw [GetQueueMetrics_eq]
    exact runOp_construct_fail _ _ _ _ hn
  · intro hn hd
    rw [GetQueueMetrics_eq]
    exact runOp_do_fail _ _ _ _ _ hn hd
  · intro hn
    rw [GetProcessMetrics_eq]
    exact runOp_construct_fail _ _ _ _ hn
  · intro hn hd
    rw [GetProcessMetrics_eq]
    exact runOp_do_fail _ _ _ _ _ hn hd
  · intro hn
    rw [GetJobStats_eq]
    exact runOp_construct_fail _ _ _ _ hn
  · intro hn hd
    rw [GetJobStats_eq]
    exact runOp_do_fail _ _ _ _ _ hn hd
  · intro hn
    rw [GetCompoundMetrics_eq]
    exact runOp_construct_fail _ _ _ _ hn
  · intro hn hd
    rw [GetCompoundMetrics_eq]
    exact runOp_do_fail _ _ _ _ _ hn hd

/-- C10: the error returns distinguish the failing stage through the
response metadata: a construction failure yields no response metadata (and
no request is executed), while an execution or decode failure passes the
response metadata obtained from the transport through verbatim alongside the
error, with the decoded result absent. -/
theorem response_metadata_distinguishes_stage (s : InstanceVariablesService)
    (t : SidekiqService) (opt : Option ListInstanceVariablesOptions)
    (copt : Option CreateInstanceVariableOptions)
    (uopt : Option UpdateInstanceVariableOptions) (key : List Nat)
    (options : List RequestOptionFunc) (e : GoErr) (re : Option Response) :
    (s.client.newRequestErr (listVariablesArgs opt options) = some e →
      (s.ListVariables opt options).1.resp = none ∧ (s.ListVariables opt options).1.doCalls = [] ∧ (s.ListVariables opt options).1.err = some e) ∧
    (s.client.newRequestErr (listVariablesArgs opt options) = none →
      clientDo s.client (mkRequest (listVariablesArgs opt options)) decodeInstanceVariableList = .fail re e →
      (s.ListVariables opt options).1.resp = re ∧ (s.ListVariables opt options).1.err = some e ∧ (s.ListVariables opt options).1.value = none) ∧
    (s.client.newRequestErr (getVariableArgs key options) = some e →
      (s.GetVariable key options).1.resp = none ∧ (s.GetVariable key options).1.doCalls = [] ∧ (s.GetVariable key options).1.err = some e) ∧
    (s.client.newRequestErr (getVariableArgs key options) = none →
      clientDo s.client (mkRequest (getVariableArgs key options)) decodeInstanceVariable = .fail re e →
      (s.GetVariable key options).1.resp = re ∧ (s.GetVariable key options).1.err = some e ∧ (s.GetVariable key options).1.value = none) ∧
    (s.client.newRequestErr (createVariableArgs copt options) = some e →
      (s.CreateVariable copt options).1.resp = none ∧ (s.CreateVariable copt options).1.doCalls = [] ∧ (s.CreateVariable copt options).1.err = some e) ∧
    (s.client.newRequestErr (createVariableArgs copt options) = none →
      clientDo s.client (mkRequest (createVariableArgs copt options)) decodeInstanceVariable = .fail re e →
      (s.CreateVariable copt options).1.resp = re ∧ (s.CreateVariable copt options).1.err = some e ∧ (s.CreateVariable copt options).1.value = none) ∧
    (s.client.newRequestErr (updateVariableArgs key uopt options) = some e →
      (s.UpdateVariable key uopt options).1.resp = none ∧ (s.UpdateVariable key uopt options).1.doCalls = [] ∧ (s.UpdateVariable key uopt options).1.err = some e) ∧
    (s.client.newRequestErr (updateVariableArgs key uopt options) = none →
      clientDo s.client (mkRequest (updateVariableArgs key uopt options)) decodeInstanceVariable = .fail re e →
      (s.UpdateVariable key uopt options).1.resp = re ∧ (s.UpdateVariable key uopt options).1.err = some e ∧ (s.UpdateVariable key uopt options).1.value = none) ∧
    (s.client.newRequestErr (removeVariableArgs key options) = some e →
      (s.RemoveVariable key options).1.resp = none ∧ (s.RemoveVariable key options).1.doCalls = [] ∧ (s.RemoveVariable key options).1.err = some e) ∧
    (s.client.newRequestErr (removeVariableArgs key options) = none →
      clientDoNoTarget s.client (mkRequest (removeVariableArgs key options)) = .fail re e →
      (s.RemoveVariable key options).1.resp = re ∧ (s.RemoveVariable key options).1.err = some e) ∧
    (t.client.newRequestErr (queueMetricsArgs options) = some e →
      (t.GetQueueMetrics options).1.resp = none ∧ (t.GetQueueMetrics options).1.doCalls = [] ∧ (t.GetQueueMetrics options).1.err = some e) ∧
    (t.client.newRequestErr (queueMetricsArgs options) = none →
      clientDo t.client (mkRequest (queueMetricsArgs options)) decodeQueueMetrics = .fail re e →
      (t.GetQueueMetrics options).1.resp = re ∧ (t.GetQueueMetrics options).1.err = some e ∧ (t.GetQueueMetrics options).1.value = none) ∧
    (t.client.newRequestErr (processMetricsArgs options) = some e →
      (t.GetProcessMetrics options).1.resp = none ∧ (t.GetProcessMetrics options).1.doCalls = [] ∧ (t.GetProcessMetrics options).1.err = some e) ∧
    (t.client.newRequestErr (processMetricsArgs options) = none →
      clientDo t.client (mkRequest (processMetricsArgs options)) decodeProcessMetrics = .fail re e →
      (t.GetProcessMetrics options).1.resp = re ∧ (t.GetProcessMetrics options).1.err = some e ∧ (t.GetProcessMetrics options).1.value = none) ∧
    (t.client.newRequestErr (jobStatsArgs options) = some e →
      (t.GetJobStats options).1.resp = none ∧ (t.GetJobStats options).1.doCalls = [] ∧ (t.GetJobStats options).1.err = some e) ∧
    (t.client.newRequestErr (jobStatsArgs options) = none →
      clientDo t.client (mkRequest (jobStatsArgs options)) decodeJobStats = .fail re e →
      (t.GetJobStats options).1.resp = re ∧ (t.GetJobStats options).1.err = some e ∧ (t.GetJobStats options).1.value = none) ∧
    (t.client.newRequestErr (compoundMetricsArgs options) = some e →
      (t.GetCompoundMetrics options).1.resp = none ∧ (t.GetCompoundMetrics options).1.doCalls = [] ∧ (t.GetCompoundMetrics options).1.err = some e) ∧
    (t.client.newRequestErr (compoundMetricsArgs options) = none →
      clientDo t.client (mkRequest (compoundMetricsArgs options)) decodeCompoundMetrics = .fail re e →
      (t.GetCompoundMetrics options).1.resp = re ∧ (t.GetCompoundMetrics options).1.err = some e ∧ (t.GetCompoundMetrics options).1.value = none) := by
  refine ⟨?_, ?_, ?_, ?_, ?_, ?_, ?_, ?_, ?_, ?_, ?_, ?_, ?_, ?_, ?_, ?_, ?_, ?_⟩
  · intro hn
    rw [ListVariables_eq, runOp_construct_fail _ _ _ _ hn]
    exact ⟨rfl, rfl, rfl⟩
  · intro hn hd
    rw [ListVariables_eq, runOp_do_fail _ _ _ _ _ hn hd]
    exact ⟨rfl, rfl, rfl⟩
  · intro hn
    rw [GetVariable_eq, runOp_construct_fail _ _ _ _ hn]
    exact ⟨rfl, rfl, rfl⟩
  · intro hn hd
    rw [GetVariable_eq, runOp_do_fail _ _ _ _ _ hn hd]
    exact ⟨rfl, rfl, rfl⟩
  · intro hn
    rw [CreateVariable_eq, runOp_construct_fail _ _ _ _ hn]
    exact ⟨rfl, rfl, rfl⟩
  · intro hn hd
    rw [CreateVariable_eq, runOp_do_fail _ _ _ _ _ hn hd]
    exact ⟨rfl, rfl, rfl⟩
  · intro hn
    rw [UpdateVariable_eq, runOp_construct_fail _ _ _ _ hn]
    exact ⟨rfl, rfl, rfl⟩
  · intro hn hd
    rw [UpdateVariable_eq, runOp_do_fail _ _ _ _ _ hn hd]
    exact ⟨rfl, rfl, rfl⟩
  · intro hn
    rw [RemoveVariable_eq, runDel_construct_fail _ _ _ hn]
    exact ⟨rfl, rfl, rfl⟩
  · intro hn hd
    rw [RemoveVariable_eq, runDel_do_fail _ _ _ _ hn hd]
    exact ⟨rfl, rfl⟩
  · intro hn
    rw [GetQueueMetrics_eq, runOp_construct_fail _ _ _ _ hn]
    exact ⟨rfl, rfl, rfl⟩
  · intro hn hd
    rw [GetQueueMetrics_eq, runOp_do_fail _ _ _ _ _ hn hd]
    exact ⟨rfl, rfl, rfl⟩
  · intro hn
    rw [GetProcessMetrics_eq, runOp_construct_fail _ _ _ _ hn]
    exact ⟨rfl, rfl, rfl⟩
  · intro hn hd
    rw [GetProcessMetrics_eq, runOp_do_fail _ _ _ _ _ hn hd]
    exact ⟨rfl, rfl, rfl⟩
  · intro hn
    rw [GetJobStats_eq, runOp_construct_fail _ _ _ _ hn]
    exact ⟨rfl, rfl, rfl⟩
  · intro hn hd
    rw [GetJobStats_eq, runOp_do_fail _ _ _ _ _ hn hd]
    exact ⟨rfl, rfl, rfl⟩
  · intro hn
    rw [GetCompoundMetrics_eq, runOp_construct_fail _ _ _ _ hn]
    exact ⟨rfl, rfl, rfl⟩
  · intro hn hd
    rw [GetCompoundMetrics_eq, runOp_do_fail _ _ _ _ _ hn hd]
    exact ⟨rfl, rfl, rfl⟩


theorem exceptBind_error {α β : Type} (m : String)
    (f : α → Except String β) :
    (Except.error m : Except String α) >>= f = Except.error m := rfl

theorem exceptBind_ok {α β : Type} (a : α) (f : α → Except String β) :
    (Except.ok a : Except String α) >>= f = f a := rfl

/-- C8: when the server answers 404 to `GetVariable`, the call fails with the
NotFound status refinement — distinguishable by the caller and distinct from
a connectivity error — and no decoded variable is returned. -/
theorem get_variable_404_is_not_found (s : InstanceVariablesService)
    (key : List Nat) (options : List RequestOptionFunc) (j : Json)
    (raw : String)
    (hn : s.client.newRequestErr (getVariableArgs key options) = none)
    (hh : s.client.http (mkRequest (getVariableArgs key options)) =
      .response 404 j raw) :
    (s.GetVariable key options).1.err = some (.status 404 raw) ∧
    (∀ e, (s.GetVariable key options).1.err = some e →
      e.isNotFound = true ∧ ∀ m, e ≠ .transport m ∧ e ≠ .decode m) ∧
    (s.GetVariable key options).1.value = none := by
  have hd : clientDo s.client (mkRequest (getVariableArgs key options))
      decodeInstanceVariable = .fail (some ⟨404, raw⟩) (.status 404 raw) :=
    clientDo_status_error _ _ _ _ _ _ hh (by omega)
  rw [GetVariable_eq, runOp_do_fail _ _ _ _ _ hn hd]
  refine ⟨rfl, ?_, rfl⟩
  intro e he
  have : GoErr.status 404 raw = e := by
    simpa using he
  subst this
  exact ⟨rfl, fun m => ⟨by simp, by simp⟩⟩

/-- C6: `CompoundMetrics` is exactly the union of the three snapshot types
(its components determine it), a successful compound decode agrees
componentwise with the three individual decoders on the same data, and
against a fixed-fixture client the compound accessor result agrees
pairwise with the three individual accessors. -/
theorem compound_is_union_of_snapshots (j : Json) (c : CompoundMetrics)
    (t : SidekiqService) (options : List RequestOptionFunc) (raw : String)
    (hdec : decodeCompoundMetrics j = .ok c) :
    (decodeQueueMetrics j = .ok c.queueMetrics ∧
      decodeProcessMetrics j = .ok c.processMetrics ∧
      decodeJobStats j = .ok c.jobStats) ∧
    (∀ c1 c2 : CompoundMetrics, c1.queueMetrics = c2.queueMetrics →
      c1.processMetrics = c2.processMetrics → c1.jobStats = c2.jobStats →
      c1 = c2) ∧
    ((∀ a, t.client.newRequestErr a = none) →
      (∀ r, t.client.http r = .response 200 j raw) →
      (t.GetCompoundMetrics options).1.value = some c ∧
      (t.GetQueueMetrics options).1.value = some c.queueMetrics ∧
      (t.GetProcessMetrics options).1.value = some c.processMetrics ∧
      (t.GetJobStats options).1.value = some c.jobStats) := by
  have hagree : decodeQueueMetrics j = .ok c.queueMetrics ∧
      decodeProcessMetrics j = .ok c.processMetrics ∧
      decodeJobStats j = .ok c.jobStats := by
    cases j with
    | null =>
      have hc : (⟨⟨[]⟩, ⟨[]⟩, ⟨⟨0, 0, 0⟩⟩⟩ : CompoundMetrics) = c := by
        simpa [decodeCompoundMetrics] using hdec
      subst hc
      exact ⟨rfl, rfl, rfl⟩
    | obj fields =>
      cases hq : parseQueuesField fields with
      | error m => simp [decodeCompoundMetrics, hq, exceptBind_error, exceptBind_ok] at hdec
      | ok qs =>
        cases hp : parseProcessesField fields with
        | error m => simp [decodeCompoundMetrics, hq, hp, exceptBind_error, exceptBind_ok] at hdec
        | ok ps =>
          cases hj : parseJobsField fields with
          | error m => simp [decodeCompoundMetrics, hq, hp, hj, exceptBind_error, exceptBind_ok] at hdec
          | ok js =>
            have hc : (⟨⟨qs⟩, ⟨ps⟩, ⟨js⟩⟩ : CompoundMetrics) = c := by
              simpa [decodeCompoundMetrics, hq, hp, hj, exceptBind_error, exceptBind_ok] using hdec
            subst hc
            exact ⟨by simp [decodeQueueMetrics, hq, Except.map],
              by simp [decodeProcessMetrics, hp, Except.map],
              by simp [decodeJobStats, hj, Except.map]⟩
    | bool b => simp [decodeCompoundMetrics] at hdec
    | num n => simp [decodeCompoundMetrics] at hdec
    | str s2 => simp [decodeCompoundMetrics] at hdec
    | arr es => simp [decodeCompoundMetrics] at hdec
  refine ⟨hagree, ?_, ?_⟩
  · intro c1 c2 h1 h2 h3
    cases c1
    cases c2
    simp_all
  · intro hctor hhttp
    refine ⟨?_, ?_, ?_, ?_⟩
    · rw [GetCompoundMetrics_eq, runOp_ok _ _ _ _ _ (hctor _)
        (clientDo_decode_ok _ _ _ _ _ _ _ (hhttp _) (by omega) hdec)]
    · rw [GetQueueMetrics_eq, runOp_ok _ _ _ _ _ (hctor _)
        (clientDo_decode_ok _ _ _ _ _ _ _ (hhttp _) (by omega) hagree.1)]
    · rw [GetProcessMetrics_eq, runOp_ok _ _ _ _ _ (hctor _)
        (clientDo_decode_ok _ _ _ _ _ _ _ (hhttp _) (by omega) hagree.2.1)]
    · rw [GetJobStats_eq, runOp_ok _ _ _ _ _ (hctor _)
        (clientDo_decode_ok _ _ _ _ _ _ _ (hhttp _) (by omega) hagree.2.2)]


/-! ## Concrete services and witnesses exercising the theorems -/

def fixtureVars : InstanceVariablesService := ⟨fixtureClient 200 Json.null "ok"⟩

def fixtureSidekiq : SidekiqService := ⟨fixtureClient 200 Json.null "ok"⟩

def brokenVars : InstanceVariablesService := ⟨brokenClient (.transport "boom")⟩

def brokenSidekiq : SidekiqService := ⟨brokenClient (.transport "boom")⟩

def offlineVars : InstanceVariablesService := ⟨offlineClient "refused"⟩

def offlineSidekiq : SidekiqService := ⟨offlineClient "refused"⟩

def notFoundVars : InstanceVariablesService := ⟨fixtureClient 404 Json.null "nf"⟩

/-- A sample fully-populated update option set. -/
def sampleUpdateOpts : UpdateInstanceVariableOptions :=
  ⟨some "v", some "d", some true, some false, some true, some "env_var"⟩

/-- A fixture body holding all three metric groups at once. -/
def fixtureMetricsJson : Json :=
  .obj [("queues", .obj [("default",
      .obj [("backlog", .num 3), ("latency", .num 1)])]),
    ("processes", .arr [.obj [("hostname", .str "h1"), ("pid", .num 7),
      ("concurrency", .num 10), ("busy", .num 2)]]),
    ("jobs", .obj [("processed", .num 100), ("failed", .num 4),
      ("enqueued", .num 9)])]

/-- The compound snapshot denoted by `fixtureMetricsJson`. -/
def fixtureCompound : CompoundMetrics :=
  ⟨⟨[("default", ⟨3, 1⟩)]⟩, ⟨[⟨"h1", 7, "", none, [], [], 10, 2⟩]⟩,
    ⟨⟨100, 4, 9⟩⟩⟩

def metricsSidekiq : SidekiqService := ⟨fixtureClient 200 fixtureMetricsJson "raw"⟩

theorem instance_variables_wire_contract_witness :
    mkRequest (listVariablesArgs none []) ∈
      (fixtureVars.ListVariables none []).1.doCalls ∧
    (mkRequest (listVariablesArgs none [])).method = .get ∧
    (mkRequest (listVariablesArgs none [])).path = ascii "admin/ci/variables" ∧
    mkRequest (getVariableArgs (ascii "KEY") []) ∈
      (fixtureVars.GetVariable (ascii "KEY") []).1.doCalls ∧
    (mkRequest (getVariableArgs (ascii "KEY") [])).body = none := by
  have hm1 : (fixtureVars.ListVariables none []).1.doCalls =
      [mkRequest (listVariablesArgs none [])] := by
    rw [ListVariables_eq]
    exact runOp_doCalls_of_construct_ok _ _ _ rfl
  have hm2 : (fixtureVars.GetVariable (ascii "KEY") []).1.doCalls =
      [mkRequest (getVariableArgs (ascii "KEY") [])] := by
    rw [GetVariable_eq]
    exact runOp_doCalls_of_construct_ok _ _ _ rfl
  have hmem1 : mkRequest (listVariablesArgs none []) ∈
      (fixtureVars.ListVariables none []).1.doCalls := by
    rw [hm1]
    exact List.mem_singleton.mpr rfl
  have hmem2 : mkRequest (getVariableArgs (ascii "KEY") []) ∈
      (fixtureVars.GetVariable (ascii "KEY") []).1.doCalls := by
    rw [hm2]
    exact List.mem_singleton.mpr rfl
  have h := instance_variables_wire_contract fixtureVars none none none
    (ascii "KEY") []
  exact ⟨hmem1, (h.1.2 _ hmem1).1, (h.1.2 _ hmem1).2.1, hmem2,
    (h.2.1.2 _ hmem2).2.2.2⟩

theorem key_percent_roundtrip_witness :
    lastSegment (getVariableArgs (ascii "a/b %") []).path =
      pathEscape (ascii "a/b %") ∧
    pathUnescape (lastSegment (getVariableArgs (ascii "a/b %") []).path) =
      some (ascii "a/b %") := by
  have h := key_percent_roundtrip fixtureVars (ascii "a/b %") none []
    (by decide)
  have hmem : getVariableArgs (ascii "a/b %") [] ∈
      (fixtureVars.GetVariable (ascii "a/b %") []).1.newRequestCalls := by
    rw [GetVariable_eq, runOp_newRequestCalls]
    exact List.mem_singleton.mpr rfl
  exact h.1 _ hmem

theorem update_body_has_no_key_field_witness :
    ("value", Json.str "v") ∈
      serializeUpdateInstanceVariableOptions sampleUpdateOpts ∧
    ("value", Json.str "v").1 ≠ "key" ∧
    (mkRequest (updateVariableArgs (ascii "k") (some sampleUpdateOpts) [])).body =
      some (.obj (serializeUpdateInstanceVariableOptions sampleUpdateOpts)) := by
  have hser : serializeUpdateInstanceVariableOptions sampleUpdateOpts =
      [("value", Json.str "v"), ("description", Json.str "d"),
        ("masked", Json.bool true), ("protected", Json.bool false),
        ("raw", Json.bool true), ("variable_type", Json.str "env_var")] := rfl
  have hmem : ("value", Json.str "v") ∈
      serializeUpdateInstanceVariableOptions sampleUpdateOpts := by
    rw [hser]
    exact List.mem_cons_self _ _
  have hmem2 : mkRequest (updateVariableArgs (ascii "k") (some sampleUpdateOpts) []) ∈
      (fixtureVars.UpdateVariable (ascii "k") (some sampleUpdateOpts) []).1.doCalls := by
    rw [UpdateVariable_eq, runOp_doCalls_of_construct_ok _ _ _ rfl]
    exact List.mem_singleton.mpr rfl
  have h := update_body_has_no_key_field fixtureVars (ascii "k")
    sampleUpdateOpts []
  exact ⟨hmem, (h.1 _ hmem).1, h.2 _ hmem2⟩

theorem errors_propagate_verbatim_witness :
    (brokenVars.ListVariables none []).1 =
      ⟨[listVariablesArgs none []], [], none, none, some (.transport "boom")⟩ ∧
    (brokenVars.RemoveVariable (ascii "k") []).1 =
      ⟨[removeVariableArgs (ascii "k") []], [], none, some (.transport "boom")⟩ ∧
    (offlineSidekiq.GetCompoundMetrics []).1 =
      ⟨[compoundMetricsArgs []], [mkRequest (compoundMetricsArgs [])], none,
        none, some (.transport "refused")⟩ := by
  obtain ⟨a1, a2, a3, a4, a5, a6, a7, a8, a9, a10, a11, a12, a13, a14, a15,
    a16, a17, a18⟩ := errors_propagate_verbatim brokenVars brokenSidekiq none
      none none (ascii "k") [] (.transport "boom") none
  obtain ⟨b1, b2, b3, b4, b5, b6, b7, b8, b9, b10, b11, b12, b13, b14, b15,
    b16, b17, b18⟩ := errors_propagate_verbatim offlineVars offlineSidekiq
      none none none (ascii "k") [] (.transport "refused") none
  exact ⟨a1 rfl, a9 rfl, b18 rfl rfl⟩

theorem compound_metrics_single_request_witness :
    (fixtureSidekiq.GetCompoundMetrics []).1.doCalls =
      [mkRequest (compoundMetricsArgs [])] ∧
    (mkRequest (compoundMetricsArgs [])).method = .get ∧
    (mkRequest (compoundMetricsArgs [])).path =
      ascii "/sidekiq/compound_metrics" ∧
    (fixtureSidekiq.GetCompoundMetrics []).1.doCalls.length ≤ 1 := by
  obtain ⟨h1, h2, h3, h4⟩ := compound_metrics_single_request fixtureSidekiq []
  have hcalls := h4 rfl
  have hmem : mkRequest (compoundMetricsArgs []) ∈
      (fixtureSidekiq.GetCompoundMetrics []).1.doCalls := by
    rw [hcalls]
    exact List.mem_singleton.mpr rfl
  exact ⟨hcalls, (h3 _ hmem).1, (h3 _ hmem).2, h2⟩

theorem compound_is_union_of_snapshots_witness :
    decodeCompoundMetrics fixtureMetricsJson = .ok fixtureCompound ∧
    decodeQueueMetrics fixtureMetricsJson = .ok fixtureCompound.queueMetrics ∧
    (metricsSidekiq.GetCompoundMetrics []).1.value = some fixtureCompound ∧
    (metricsSidekiq.GetQueueMetrics []).1.value =
      some fixtureCompound.queueMetrics ∧
    (metricsSidekiq.GetJobStats []).1.value = some fixtureCompound.jobStats := by
  have hdec : decodeCompoundMetrics fixtureMetricsJson = .ok fixtureCompound := rfl
  obtain ⟨hag, hext, hop⟩ := compound_is_union_of_snapshots fixtureMetricsJson
    fixtureCompound metricsSidekiq [] "raw" hdec
  obtain ⟨h1, h2, h3, h4⟩ := hop (fun a => rfl) (fun r => rfl)
  exact ⟨hdec, hag.1, h1, h2, h4⟩

theorem sidekiq_wire_contract_witness :
    mkRequest (queueMetricsArgs []) ∈
      (fixtureSidekiq.GetQueueMetrics []).1.doCalls ∧
    (mkRequest (queueMetricsArgs [])).method = .get ∧
    (mkRequest (queueMetricsArgs [])).path = ascii "/sidekiq/queue_metrics" ∧
    (mkRequest (queueMetricsArgs [])).body = none := by
  have hmem : mkRequest (queueMetricsArgs []) ∈
      (fixtureSidekiq.GetQueueMetrics []).1.doCalls := by
    rw [GetQueueMetrics_eq, runOp_doCalls_of_construct_ok _ _ _ rfl]
    exact List.mem_singleton.mpr rfl
  have h := sidekiq_wire_contract fixtureSidekiq []
  exact ⟨hmem, (h.1.2 _ hmem).1, (h.1.2 _ hmem).2.1, (h.1.2 _ hmem).2.2.2.1⟩

theorem get_variable_404_is_not_found_witness :
    (notFoundVars.GetVariable (ascii "missing") []).1.err =
      some (.status 404 "nf") ∧
    (GoErr.status 404 "nf").isNotFound = true ∧
    (notFoundVars.GetVariable (ascii "missing") []).1.value = none := by
  obtain ⟨h1, h2, h3⟩ := get_variable_404_is_not_found notFoundVars
    (ascii "missing") [] Json.null "nf" rfl rfl
  exact ⟨h1, (h2 _ h1).1, h3⟩

theorem services_state_invariant_witness :
    (fixtureVars.ListVariables none []).2 = fixtureVars ∧
    (fixtureSidekiq.GetCompoundMetrics []).2 = fixtureSidekiq ∧
    (fixtureVars.GetVariable (ascii "k") []).1 =
      ((⟨fixtureVars.client⟩ : InstanceVariablesService).GetVariable
        (ascii "k") []).1 := by
  obtain ⟨hstate, hdep, hdept⟩ := services_state_invariant fixtureVars
    ⟨fixtureVars.client⟩ fixtureSidekiq ⟨fixtureSidekiq.client⟩ none none none
    (ascii "k") []
  exact ⟨hstate.1, hstate.2.2.2.2.2.2.2.2, (hdep rfl).2.1⟩

theorem response_metadata_distinguishes_stage_witness :
    (brokenVars.GetVariable (ascii "k") []).1.resp = none ∧
    (brokenVars.GetVariable (ascii "k") []).1.doCalls = [] ∧
    (notFoundVars.GetVariable (ascii "k") []).1.resp = some ⟨404, "nf"⟩ ∧
    (notFoundVars.GetVariable (ascii "k") []).1.value = none := by
  obtain ⟨a1, a2, a3, a4, a5, a6, a7, a8, a9, a10, a11, a12, a13, a14, a15,
    a16, a17, a18⟩ := response_metadata_distinguishes_stage brokenVars
      brokenSidekiq none none none (ascii "k") [] (.transport "boom") none
  obtain ⟨b1, b2, b3, b4, b5, b6, b7, b8, b9, b10, b11, b12, b13, b14, b15,
    b16, b17, b18⟩ := response_metadata_distinguishes_stage notFoundVars
      brokenSidekiq none none none (ascii "k") []
      (.status 404 "nf") (some ⟨404, "nf"⟩)
  exact ⟨(a3 rfl).1, (a3 rfl).2.1, (b4 rfl rfl).1, (b4 rfl rfl).2.2⟩

end GitlabClient
